import Mathlib

/-!
CloudFinalProjectF25: the credential / session-token subsystem and the inventory queries.

A shallow embedding of

* `backend/middleware/auth.js`   (the auth gate),
* `backend/models/User.js`       (account schema, `toJSON`),
* `backend/models/Inventory.js`  (inventory schema validation),
* `backend/routes/auth.js`       (`/register`, `/login`, `/verify`, `/check-email`,
  `/check-username`),
* `frontend/src/components/Dashboard.js` (`filterItems`, the `Total Value` card),

followed by theorems about them.

Third-party libraries are not part of the repository.  They are modelled as follows.

* `jsonwebtoken`: symbolically.  A token is either header text that is not a well-formed
  signed JWT (`Token.raw`) or a payload together with the key it was signed with
  (`Token.signed`).  `jwtVerify` follows the order of checks of `jwt.verify`
  (well-formedness, secret present, signature, expiry); times are in seconds, obtained from
  the millisecond clock by integer division, as the library does.
* `bcryptjs`, `validator.isEmail`, the ObjectId generator, the ObjectId cast and the clock:
  fields of `Env`, so every theorem holds for every behaviour of these.
* `String.prototype.toLowerCase` and `toUpperCase`: the fields of `CaseMapping`, any pair of
  functions with the properties listed there (the ECMAScript ones have them), so every
  theorem holds for the Unicode case conversion of the runtime; the concrete instances are
  evaluated with `latin1Case`, the conversions on text of the Latin-1 range.
* `mongoose`: the store is the list of saved documents; a value set on a document and a
  value in a query filter both go through the setters of their path (`trim`, `lowercase`),
  `findOne` is a first match on the filter so cast, `findById` casts its argument to an
  ObjectId, `save` applies the `required` validators and the unique indexes declared in
  `models/User.js`.
-/

namespace CloudInventory

/-! ## JavaScript strings -/

/-- Lowercasing of the ASCII letters `A`-`Z`; every other character is kept. -/
def asciiLowerCase (s : String) : String := ⟨s.data.map Char.toLower⟩

/-- Uppercasing of the ASCII letters `a`-`z`; every other character is kept. -/
def asciiUpperCase (s : String) : String := ⟨s.data.map Char.toUpper⟩

/-- Whether a string consists of ASCII characters only. -/
def isAscii (s : String) : Bool := s.data.all (fun c => c.toNat < 128)

/-- The case conversions of the JavaScript runtime.  Nothing is assumed of them on
non-ASCII text beyond what is listed: lowercasing a lowercased string changes nothing,
only the empty string lowercases to the empty string, and on ASCII strings both are the
ASCII conversions. -/
structure CaseMapping where
  /-- `String.prototype.toLowerCase`. -/
  toLowerCase : String → String
  /-- `String.prototype.toUpperCase`. -/
  toUpperCase : String → String
  toLowerCase_idem : ∀ s, toLowerCase (toLowerCase s) = toLowerCase s
  toLowerCase_eq_empty : ∀ s, toLowerCase s = "" ↔ s = ""
  toLowerCase_ascii : ∀ s, isAscii s = true → toLowerCase s = asciiLowerCase s
  toUpperCase_ascii : ∀ s, isAscii s = true → toUpperCase s = asciiUpperCase s

/-- Lowercasing of a character of the Latin-1 range: `A`-`Z` and `À`-`Þ` (without `×`) move
up by 32; every other character is kept. -/
def latin1LowerChar (c : Char) : Char :=
  if (65 ≤ c.toNat ∧ c.toNat ≤ 90) ∨ (192 ≤ c.toNat ∧ c.toNat ≤ 222 ∧ c.toNat ≠ 215) then
    Char.ofNat (c.toNat + 32)
  else c

/-- Uppercasing of a character of the Latin-1 range: `a`-`z` and `à`-`þ` (without `÷`) move
down by 32, `ß` becomes `SS`, `ÿ` and `µ` go to their capitals outside the range; every
other character is kept. -/
def latin1UpperChars (c : Char) : List Char :=
  if c.toNat = 223 then ['S', 'S']
  else if c.toNat = 255 then [Char.ofNat 376]
  else if c.toNat = 181 then [Char.ofNat 924]
  else if (97 ≤ c.toNat ∧ c.toNat ≤ 122) ∨ (224 ≤ c.toNat ∧ c.toNat ≤ 254 ∧ c.toNat ≠ 247) then
    [Char.ofNat (c.toNat - 32)]
  else [c]

/-- `String.prototype.toLowerCase` on text of the Latin-1 range. -/
def latin1LowerCase (s : String) : String := ⟨s.data.map latin1LowerChar⟩

/-- `String.prototype.toUpperCase` on text of the Latin-1 range. -/
def latin1UpperCase (s : String) : String := ⟨s.data.flatMap latin1UpperChars⟩

/-- The case conversions of the runtime on text of the Latin-1 range (ASCII and the
accented letters `À`-`ÿ`), as a `CaseMapping`; the concrete instances are evaluated with
it. -/
def latin1Case : CaseMapping where
  toLowerCase := latin1LowerCase
  toUpperCase := latin1UpperCase
  toLowerCase_idem := by
    intro s
    have key : ∀ n : Nat, (65 ≤ n ∧ n ≤ 90) ∨ (192 ≤ n ∧ n ≤ 222 ∧ n ≠ 215) →
        ¬ ((65 ≤ (Char.ofNat (n + 32)).toNat ∧ (Char.ofNat (n + 32)).toNat ≤ 90) ∨
          (192 ≤ (Char.ofNat (n + 32)).toNat ∧ (Char.ofNat (n + 32)).toNat ≤ 222 ∧
            (Char.ofNat (n + 32)).toNat ≠ 215)) := by
      intro n hn
      rcases hn with ⟨h1, h2⟩ | ⟨h1, h2, -⟩
      · interval_cases n <;> decide
      · interval_cases n <;> decide
    have hchar : ∀ c : Char, latin1LowerChar (latin1LowerChar c) = latin1LowerChar c := by
      intro c
      unfold latin1LowerChar
      by_cases h : (65 ≤ c.toNat ∧ c.toNat ≤ 90) ∨ (192 ≤ c.toNat ∧ c.toNat ≤ 222 ∧ c.toNat ≠ 215)
      · rw [if_pos h, if_neg (key c.toNat h)]
      · rw [if_neg h, if_neg h]
    unfold latin1LowerCase
    simp only [List.map_map]
    congr 1
    apply List.map_congr_left
    intro c _
    exact hchar c
  toLowerCase_eq_empty := by
    intro s
    constructor
    · intro h
      have hd := congrArg String.data h
      simp only [latin1LowerCase] at hd
      have : s.data = [] := by simpa using hd
      cases s
      simp_all
    · intro h
      rw [h]
      rfl
  toLowerCase_ascii := by
    intro s hs
    unfold latin1LowerCase asciiLowerCase
    congr 1
    apply List.map_congr_left
    intro c hc
    have hlt : c.toNat < 128 := by
      have := List.all_eq_true.mp hs c hc
      simpa using this
    unfold latin1LowerChar Char.toLower
    by_cases h : 65 ≤ c.toNat ∧ c.toNat ≤ 90
    · rw [if_pos (Or.inl h), if_pos h]
    · have h' : ¬ ((65 ≤ c.toNat ∧ c.toNat ≤ 90) ∨
          (192 ≤ c.toNat ∧ c.toNat ≤ 222 ∧ c.toNat ≠ 215)) := by omega
      rw [if_neg h', if_neg h]
  toUpperCase_ascii := by
    intro s hs
    unfold latin1UpperCase asciiUpperCase
    congr 1
    have hall : ∀ c ∈ s.data, c.toNat < 128 := by
      intro c hc
      have := List.all_eq_true.mp hs c hc
      simpa using this
    have hchar : ∀ c : Char, c.toNat < 128 → latin1UpperChars c = [c.toUpper] := by
      intro c hlt
      unfold latin1UpperChars Char.toUpper
      have h1 : ¬ c.toNat = 223 := by omega
      have h2 : ¬ c.toNat = 255 := by omega
      have h3 : ¬ c.toNat = 181 := by omega
      rw [if_neg h1, if_neg h2, if_neg h3]
      by_cases h : 97 ≤ c.toNat ∧ c.toNat ≤ 122
      · rw [if_pos (Or.inl h), if_pos h]
      · have h' : ¬ ((97 ≤ c.toNat ∧ c.toNat ≤ 122) ∨
            (224 ≤ c.toNat ∧ c.toNat ≤ 254 ∧ c.toNat ≠ 247)) := by omega
        rw [if_neg h', if_neg h]
    generalize s.data = l at hall
    induction l with
    | nil => rfl
    | cons c l ih =>
      rw [List.flatMap_cons, List.map_cons, hchar c (hall c (List.mem_cons_self _ _)),
        ih (fun d hd => hall d (List.mem_cons_of_mem _ hd))]
      rfl

/-- White space and line terminators removed by `String.prototype.trim`. -/
def isJsWhitespace (c : Char) : Bool :=
  c.toNat ∈ [9, 10, 11, 12, 13, 32, 160, 5760, 8232, 8233, 8239, 8287, 12288, 65279]
    || (8192 ≤ c.toNat && c.toNat ≤ 8202)

/-- `String.prototype.trim`. -/
def trim (s : String) : String :=
  ⟨((s.data.dropWhile isJsWhitespace).reverse.dropWhile isJsWhitespace).reverse⟩

/-- `String.prototype.includes`: `t` occurs in `s` as a contiguous substring. -/
def includes (s t : String) : Bool :=
  s.data.tails.any (fun suffix => t.data.isPrefixOf suffix)

/-! ## Errors, tokens, environment -/

deriving instance DecidableEq for Except

/-- A thrown JavaScript error, with the properties the handlers inspect. -/
structure JsError where
  name : String
  message : String
  /-- `err.code` (MongoDB server errors). -/
  code : Option Nat := none
  /-- `Object.keys(err.keyPattern)[0]` (duplicate-key errors). -/
  keyField : Option String := none
  /-- `Object.values(err.errors).map(e => e.message)` (mongoose validation errors). -/
  messages : List String := []
  deriving DecidableEq, Repr

/-- The `user` object placed in the token payload. -/
structure Claims where
  id : String
  username : String
  email : String
  deriving DecidableEq, Repr

/-- A decoded token payload: the application claims and the registered claims
`iat` and `exp` (seconds since the epoch). -/
structure JwtPayload where
  user : Option Claims
  iat : Nat
  exp : Option Nat
  deriving DecidableEq, Repr

/-- The value of the `x-auth-token` header / the `token` field of a response. -/
inductive Token where
  /-- Text that is not a well-formed signed JWT (the empty string included). -/
  | raw (s : String)
  /-- A well-formed JWT: its payload and the key its signature was made with. -/
  | signed (payload : JwtPayload) (key : String)
  deriving DecidableEq, Repr

/-- JavaScript falsiness of a header value that is present: only the empty string. -/
def Token.falsy : Token → Bool
  | .raw s => s == ""
  | .signed _ _ => false

/-- The storage calls made by the route handlers, by call site. -/
inductive DbOp where
  | findOneEmail
  | findOneUsername
  | save
  | findById
  deriving DecidableEq, Repr

/-- Everything a handler reads from outside the request and the store. -/
structure Env extends CaseMapping where
  /-- `process.env.JWT_SECRET`. -/
  JWT_SECRET : Option String
  /-- `process.env.NODE_ENV`. -/
  NODE_ENV : Option String
  /-- `Date.now()`, milliseconds. -/
  now : Nat
  /-- `validator.isEmail`, as used by `check(...).isEmail()`. -/
  isEmail : String → Bool
  /-- `bcrypt.genSalt(10)`: the salt drawn for this request. -/
  genSalt : String
  /-- `bcrypt.hash(password, salt)`. -/
  bcryptHash : String → String → String
  /-- `bcrypt.compare(candidate, hash)`. -/
  bcryptCompare : String → String → Bool
  /-- The ObjectId given to a document created during this request. -/
  newObjectId : String
  /-- Whether mongoose casts a string to an ObjectId (it throws a `CastError` otherwise). -/
  isObjectId : String → Bool
  /-- An unexpected fault of the storage layer at a call site, if any. -/
  dbFault : DbOp → Option JsError
  /-- The `name` of the driver's duplicate-key error (`MongoError` up to driver 3.x,
  `MongoServerError` from 4.0). -/
  duplicateKeyErrorName : String

/-- JavaScript truthiness of `process.env.JWT_SECRET`. -/
def Env.secretTruthy (env : Env) : Bool :=
  match env.JWT_SECRET with
  | none => false
  | some s => s != ""

/-! ## jsonwebtoken -/

/-- A non-empty run of decimal digits as a number. -/
def parseDigits (ds : List Char) : Option Nat :=
  if ds ≠ [] ∧ ds.all Char.isDigit then
    some (ds.foldl (fun n c => 10 * n + (c.toNat - 48)) 0)
  else none

/-- The time spans of the `ms` package that the code uses (`'7d'`), in seconds. -/
def timespanSeconds (span : String) : Option Nat :=
  match span.data.reverse with
  | 'd' :: ds => (parseDigits ds.reverse).map (· * 86400)
  | 'h' :: ds => (parseDigits ds.reverse).map (· * 3600)
  | 'm' :: ds => (parseDigits ds.reverse).map (· * 60)
  | 's' :: ds => parseDigits ds.reverse
  | _ => none

/-- `jwt.sign(payload, secret, { expiresIn })` at clock `now` (milliseconds). -/
def jwtSign (user : Claims) (secret : String) (expiresIn : String) (now : Nat) :
    Except JsError Token :=
  if secret = "" then
    .error { name := "Error", message := "secretOrPrivateKey must have a value" }
  else
    match timespanSeconds expiresIn with
    | none => .error { name := "Error", message := "expiresIn should be a number of seconds or string representing a timespan" }
    | some span =>
      let iat := now / 1000
      .ok (.signed { user := some user, iat := iat, exp := some (iat + span) } secret)

/-- `jwt.verify(token, secret)` at clock `now` (milliseconds). -/
def jwtVerify (token : Token) (secret : Option String) (now : Nat) :
    Except JsError JwtPayload :=
  match token with
  | .raw s =>
    if s = "" then .error { name := "JsonWebTokenError", message := "jwt must be provided" }
    else .error { name := "JsonWebTokenError", message := "jwt malformed" }
  | .signed payload key =>
    match secret with
    | none => .error { name := "JsonWebTokenError", message := "secret or public key must be provided" }
    | some s =>
      if s = "" then
        .error { name := "JsonWebTokenError", message := "secret or public key must be provided" }
      else if key ≠ s then
        .error { name := "JsonWebTokenError", message := "invalid signature" }
      else
        match payload.exp with
        | some exp =>
          if now / 1000 ≥ exp then .error { name := "TokenExpiredError", message := "jwt expired" }
          else .ok payload
        | none => .ok payload

/-! ## HTTP responses -/

/-- A JavaScript value stored in a plain object. -/
inductive JsVal where
  | str (s : String)
  | num (n : Nat)
  | date (ms : Nat)
  deriving DecidableEq, Repr

/-- A plain JavaScript object: its own properties in insertion order. -/
abbrev Obj := List (String × JsVal)

/-- The property names of an object. -/
def Obj.keys (o : Obj) : List String := o.map Prod.fst

/-- Property access. -/
def Obj.get (o : Obj) (k : String) : Option JsVal := (o.find? (fun p => p.1 == k)).map Prod.snd

/-- The `delete o[k]` statement. -/
def Obj.delete (o : Obj) (k : String) : Obj := o.filter (fun p => p.1 != k)

/-- One entry of the `errors` array of a validation response. -/
structure FieldError where
  field : String
  message : String
  deriving DecidableEq, Repr

/-- The JSON body of a response; an absent property is `none`. -/
structure Body where
  success : Bool
  message : Option String := none
  field : Option String := none
  errors : Option (List FieldError) := none
  token : Option Token := none
  user : Option Obj := none
  error : Option String := none
  /-- The `available`, `email` and `username` properties of the availability checks. -/
  available : Option Bool := none
  email : Option String := none
  username : Option String := none
  deriving DecidableEq, Repr

/-! ## `middleware/auth.js` -/

/-- The part of an Express request the gate reads and writes. -/
structure Request where
  /-- `req.header('x-auth-token')`. -/
  xAuthToken : Option Token
  /-- `req.user`. -/
  user : Option Claims := none
  deriving DecidableEq, Repr

/-- What the gate does, in order. -/
inductive GateEvent where
  /-- `next()` was called, with the request as it then was. -/
  | next (req : Request)
  /-- `res.status(status).json(body)`. -/
  | respond (status : Nat) (body : Body)
  deriving DecidableEq, Repr

/-- The `catch (err)` block of `auth`. -/
def authCatch (err : JsError) : List GateEvent :=
  if err.name = "TokenExpiredError" then
    [.respond 401 { success := false, message := some "Token has expired, please login again" }]
  else
    [.respond 401 { success := false, message := some "Invalid authentication token" }]

/-- The middleware `auth(req, res, next)`.  `next r` is `none` when the downstream handler
returns normally and `some e` when it throws `e` synchronously. -/
def auth (env : Env) (req : Request) (next : Request → Option JsError) : List GateEvent :=
  match req.xAuthToken with
  | none =>
    [.respond 401 { success := false, message := some "No authentication token, access denied" }]
  | some token =>
    if token.falsy then
      [.respond 401 { success := false, message := some "No authentication token, access denied" }]
    else
      match jwtVerify token env.JWT_SECRET env.now with
      | .ok decoded =>
        let req' := { req with user := decoded.user }
        match next req' with
        | none => [.next req']
        | some err => .next req' :: authCatch err
      | .error err => authCatch err

/-! ## `models/User.js` -/

/-- A document of the `User` model. -/
structure User where
  _id : String
  username : String
  email : String
  /-- The bcrypt hash. -/
  password : String
  createdAt : Nat
  __v : Nat := 0
  deriving DecidableEq, Repr

/-- The plain object `this.toObject()` of a user document. -/
def User.toObject (u : User) : Obj :=
  [("_id", .str u._id), ("username", .str u.username), ("email", .str u.email),
   ("password", .str u.password), ("createdAt", .date u.createdAt), ("__v", .num u.__v)]

/-- `UserSchema.methods.toJSON`. -/
def User.toJSON (u : User) : Obj :=
  let user := u.toObject
  user.delete "password"

/-- The `users` collection. -/
abbrev Store := List User

/-- The setter of the `username` path (`trim: true`). -/
def usernameSetters (v : String) : String := trim v

/-- The setters of the `email` path (`lowercase: true`, `trim: true`); mongoose runs the
setters of a path last declared first. -/
def emailSetters (env : Env) (v : String) : String := env.toLowerCase (trim v)

/-- `new User({ username, email, password })`: the schema setters and the default
`createdAt: Date.now` applied. -/
def newUser (env : Env) (username email password : String) : User :=
  { _id := env.newObjectId
    username := usernameSetters username
    email := emailSetters env email
    password := password
    createdAt := env.now }

/-- `User.findOne({ email })`: the first document whose email is the filter value, cast
through the setters of the path. -/
def findOneByEmail (env : Env) (store : Store) (email : String) : Option User :=
  store.find? (fun u => u.email == emailSetters env email)

/-- `User.findOne({ username })`: the first document whose username is the filter value,
cast through the setter of the path. -/
def findOneByUsername (store : Store) (username : String) : Option User :=
  store.find? (fun u => u.username == usernameSetters username)

/-- The `required: true` validators of `UserSchema`, in schema order; a string path fails
when its value is empty. -/
def userRequiredErrors (u : User) : List String :=
  (if u.username = "" then ["Path `username` is required."] else [])
    ++ (if u.email = "" then ["Path `email` is required."] else [])
    ++ (if u.password = "" then ["Path `password` is required."] else [])

/-- `user.save()`: schema validation, then the insert under the unique indexes on `username`
and `email`, unless the storage layer fails on its own. -/
def save (env : Env) (store : Store) (u : User) : Except JsError Store :=
  if userRequiredErrors u ≠ [] then
    .error { name := "ValidationError", message := "User validation failed",
             messages := userRequiredErrors u }
  else
    match env.dbFault .save with
    | some err => .error err
    | none =>
      if store.any (fun v => v.username == u.username) then
        .error { name := env.duplicateKeyErrorName, message := "E11000 duplicate key error",
                 code := some 11000, keyField := some "username" }
      else if store.any (fun v => v.email == u.email) then
        .error { name := env.duplicateKeyErrorName, message := "E11000 duplicate key error",
                 code := some 11000, keyField := some "email" }
      else .ok (store ++ [u])

/-! ## `routes/auth.js` -/

/-- Calls a route handler makes to its collaborators. -/
inductive Effect where
  | findOneEmail (email : String)
  | findOneUsername (username : String)
  | genSalt
  | hash (password salt : String)
  | compare (candidate hash : String)
  | save (doc : User)
  | sign (user : Claims) (secret : String) (expiresIn : String)
  | findById (id : String)
  deriving DecidableEq, Repr

/-- The result of running a route handler: the response sent, the collection afterwards and
the calls made, in order. -/
structure Outcome where
  status : Nat
  body : Body
  store : Store
  log : List Effect
  deriving DecidableEq, Repr

/-- An exception leaving a `try` block, with the collection and the calls made so far. -/
structure Thrown where
  err : JsError
  store : Store
  log : List Effect
  deriving DecidableEq, Repr

/-- The body of `POST /register` and `POST /login`; an absent property is `none`. -/
structure Credentials where
  username : Option String := none
  email : Option String := none
  password : Option String := none
  deriving DecidableEq, Repr

/-- The string a validator sees for a body property: `''` for an absent one. -/
def fieldText (v : Option String) : String := v.getD ""

/-- The validation chains of `POST /register`, in order; `errors.array()` mapped to
`{ field, message }`. -/
def validateRegister (env : Env) (req : Credentials) : List FieldError :=
  (if fieldText req.username = "" then
      [{ field := "username", message := "Username is required" }] else [])
    ++ (if 3 ≤ (fieldText req.username).length ∧ (fieldText req.username).length ≤ 30 then []
        else [{ field := "username", message := "Username must be 3-30 characters" }])
    ++ (if env.isEmail (fieldText req.email) then []
        else [{ field := "email", message := "Please include a valid email" }])
    ++ (if 6 ≤ (fieldText req.password).length then []
        else [{ field := "password", message := "Password must be at least 6 characters" }])

/-- The validation chains of `POST /login`. -/
def validateLogin (env : Env) (req : Credentials) : List FieldError :=
  (if env.isEmail (fieldText req.email) then []
      else [{ field := "email", message := "Please include a valid email" }])
    ++ (if req.password.isSome then []
        else [{ field := "password", message := "Password is required" }])

/-- The `user` object of a success response of `/register` and `/login`. -/
def publicUser (user : User) : Obj :=
  [("id", .str user._id), ("username", .str user.username), ("email", .str user.email),
   ("createdAt", .date user.createdAt)]

/-- From `// Create JWT payload` to the end of the `try` block; the same statements in
`/register` (which answers 201, `Registration successful!`) and `/login` (200,
`Login successful!`). -/
def issueToken (env : Env) (user : User) (status : Nat) (message : String) (store : Store)
    (log : List Effect) : Outcome :=
  let payload : Claims := { id := user._id, username := user.username, email := user.email }
  match env.JWT_SECRET with
  | none =>
    { status := 500, body := { success := false, message := some "Server configuration error" },
      store := store, log := log }
  | some secret =>
    if secret = "" then
      { status := 500, body := { success := false, message := some "Server configuration error" },
        store := store, log := log }
    else
      match jwtSign payload secret "7d" env.now with
      | .error _ =>
        { status := 500,
          body := { success := false, message := some "Error generating authentication token" },
          store := store, log := log ++ [.sign payload secret "7d"] }
      | .ok token =>
        { status := status,
          body := { success := true, token := some token, user := some (publicUser user),
                    message := some message },
          store := store, log := log ++ [.sign payload secret "7d"] }

/-- The `try` block of `POST /register`. -/
def registerTry (env : Env) (store : Store) (req : Credentials) : Except Thrown Outcome :=
  match req.username, req.email, req.password with
  | some username, some email, some password =>
    let log1 := [Effect.findOneEmail (env.toLowerCase email)]
    match env.dbFault .findOneEmail with
    | some err => .error { err := err, store := store, log := log1 }
    | none =>
      match findOneByEmail env store (env.toLowerCase email) with
      | some _ =>
        .ok { status := 400,
              body := { success := false, message := some "A user with this email already exists",
                        field := some "email" },
              store := store, log := log1 }
      | none =>
        let log2 := log1 ++ [Effect.findOneUsername username]
        match env.dbFault .findOneUsername with
        | some err => .error { err := err, store := store, log := log2 }
        | none =>
          match findOneByUsername store username with
          | some _ =>
            .ok { status := 400,
                  body := { success := false, message := some "This username is already taken",
                            field := some "username" },
                  store := store, log := log2 }
          | none =>
            let salt := env.genSalt
            let hashedPassword := env.bcryptHash password salt
            let user := newUser env username (env.toLowerCase email) hashedPassword
            let log3 := log2 ++ [Effect.genSalt, Effect.hash password salt, Effect.save user]
            match save env store user with
            | .error err => .error { err := err, store := store, log := log3 }
            | .ok store' => .ok (issueToken env user 201 "Registration successful!" store' log3)
  | _, _, _ =>
    -- a destructured property is `undefined` (validation lets this through only for an
    -- `email` that `isEmail` accepts as `''`): `email.toLowerCase()` throws
    .error { err := { name := "TypeError", message := "Cannot read properties of undefined" },
             store := store, log := [] }

/-- The `catch (err)` block of `POST /register`. -/
def registerCatch (env : Env) (t : Thrown) : Outcome :=
  if t.err.name = "MongoError" ∧ t.err.code = some 11000 then
    let field := t.err.keyField.getD "undefined"
    { status := 400,
      body := { success := false, message := some (field ++ " already exists"),
                field := t.err.keyField },
      store := t.store, log := t.log }
  else if t.err.name = "ValidationError" then
    { status := 400,
      body := { success := false, message := some (", ".intercalate t.err.messages) },
      store := t.store, log := t.log }
  else
    { status := 500,
      body := { success := false, message := some "Server error during registration",
                error := if env.NODE_ENV = some "development" then some t.err.message else none },
      store := t.store, log := t.log }

/-- The handler of `POST /api/auth/register`. -/
def register (env : Env) (store : Store) (req : Credentials) : Outcome :=
  let errors := validateRegister env req
  if errors ≠ [] then
    { status := 400, body := { success := false, errors := some errors },
      store := store, log := [] }
  else
    match registerTry env store req with
    | .ok out => out
    | .error thrown => registerCatch env thrown

/-- The `try` block of `POST /login`. -/
def loginTry (env : Env) (store : Store) (req : Credentials) : Except Thrown Outcome :=
  match req.email, req.password with
  | some email, some password =>
    let log1 := [Effect.findOneEmail (env.toLowerCase email)]
    match env.dbFault .findOneEmail with
    | some err => .error { err := err, store := store, log := log1 }
    | none =>
      match findOneByEmail env store (env.toLowerCase email) with
      | none =>
        .ok { status := 400,
              body := { success := false, message := some "Invalid email or password",
                        field := some "email" },
              store := store, log := log1 }
      | some user =>
        let log2 := log1 ++ [Effect.compare password user.password]
        let isMatch := env.bcryptCompare password user.password
        if !isMatch then
          .ok { status := 400,
                body := { success := false, message := some "Invalid email or password",
                          field := some "password" },
                store := store, log := log2 }
        else
          .ok (issueToken env user 200 "Login successful!" store log2)
  | _, _ =>
    -- a destructured property is `undefined`: `email.toLowerCase()` throws
    .error { err := { name := "TypeError", message := "Cannot read properties of undefined" },
             store := store, log := [] }

/-- The `catch (err)` block of `POST /login`. -/
def loginCatch (env : Env) (t : Thrown) : Outcome :=
  { status := 500,
    body := { success := false, message := some "Server error during login",
              error := if env.NODE_ENV = some "development" then some t.err.message else none },
    store := t.store, log := t.log }

/-- The handler of `POST /api/auth/login`. -/
def login (env : Env) (store : Store) (req : Credentials) : Outcome :=
  let errors := validateLogin env req
  if errors ≠ [] then
    { status := 400, body := { success := false, errors := some errors },
      store := store, log := [] }
  else
    match loginTry env store req with
    | .ok out => out
    | .error thrown => loginCatch env thrown

/-- The `catch (err)` block of `GET /verify`. -/
def verifyCatch (t : Thrown) : Outcome :=
  { status := 401, body := { success := false, message := some "Invalid token" },
    store := t.store, log := t.log }

/-- The `try` block of `GET /verify`, for the token read from the header. -/
def verifyTry (env : Env) (store : Store) (token : Token) : Except Thrown Outcome :=
  match env.JWT_SECRET with
  | none =>
    .ok { status := 500, body := { success := false, message := some "Server configuration error" },
          store := store, log := [] }
  | some secret =>
    if secret = "" then
      .ok { status := 500,
            body := { success := false, message := some "Server configuration error" },
            store := store, log := [] }
    else
      match jwtVerify token (some secret) env.now with
      | .error err => .error { err := err, store := store, log := [] }
      | .ok decoded =>
        match decoded.user with
        | none =>
          -- `decoded.user.id` with `decoded.user` undefined
          .error { err := { name := "TypeError",
                            message := "Cannot read properties of undefined" },
                   store := store, log := [] }
        | some claims =>
          let log := [Effect.findById claims.id]
          if !env.isObjectId claims.id then
            -- `findById` cannot cast the id to an ObjectId
            .error { err := { name := "CastError", message := "Cast to ObjectId failed" },
                     store := store, log := log }
          else
          match env.dbFault .findById with
          | some err => .error { err := err, store := store, log := log }
          | none =>
            -- `User.findById(decoded.user.id).select('-password')`
            match store.find? (fun u => u._id == claims.id) with
            | none =>
              .ok { status := 404, body := { success := false, message := some "User not found" },
                    store := store, log := log }
            | some user =>
              .ok { status := 200, body := { success := true, user := some user.toJSON },
                    store := store, log := log }

/-- The handler of `GET /api/auth/verify`. -/
def verifyRoute (env : Env) (store : Store) (req : Request) : Outcome :=
  match req.xAuthToken with
  | none =>
    { status := 401, body := { success := false, message := some "No token provided" },
      store := store, log := [] }
  | some token =>
    if token.falsy then
      { status := 401, body := { success := false, message := some "No token provided" },
        store := store, log := [] }
    else
      match verifyTry env store token with
      | .ok out => out
      | .error thrown => verifyCatch thrown

/-- The handler of `GET /api/auth/check-email/:email`. -/
def checkEmail (env : Env) (store : Store) (email : String) : Outcome :=
  let log := [Effect.findOneEmail (env.toLowerCase email)]
  match env.dbFault .findOneEmail with
  | some _ =>
    { status := 500, body := { success := false, message := some "Server error" },
      store := store, log := log }
  | none =>
    let user := findOneByEmail env store (env.toLowerCase email)
    { status := 200,
      body := { success := true, available := some (!user.isSome), email := some email },
      store := store, log := log }

/-- The handler of `GET /api/auth/check-username/:username`. -/
def checkUsername (env : Env) (store : Store) (username : String) : Outcome :=
  let log := [Effect.findOneUsername username]
  match env.dbFault .findOneUsername with
  | some _ =>
    { status := 500, body := { success := false, message := some "Server error" },
      store := store, log := log }
  | none =>
    let user := findOneByUsername store username
    { status := 200,
      body := { success := true, available := some (!user.isSome), username := some username },
      store := store, log := log }

/-! ## `models/Inventory.js` -/

/-- The fields handed to the `Inventory` model; an absent field is `none`.  `costUnit` is a
finite number. -/
structure InventoryFields where
  inventoryId : Option String := none
  productName : Option String := none
  category : Option String := none
  supplier : Option String := none
  stock : Option String := none
  costUnit : Option ℚ := none
  warehouse : Option String := none
  lastUpdated : Option Nat := none
  userId : Option String := none
  deriving DecidableEq, Repr

/-- The `enum.values` of `category`. -/
def categoryValues : List String :=
  ["Accessories", "Electronics", "Furniture", "Printing", "Audio", "Office", "Storage"]

/-- The `enum.values` of `stock`. -/
def stockValues : List String := ["In stock", "Out of stock"]

/-- The schema setters and defaults: `trim`, `uppercase` (the setters of a path run last
declared first), `default: 'In stock'`, `default: Date.now`. -/
def applySetters (env : Env) (r : InventoryFields) : InventoryFields :=
  { r with
    inventoryId := r.inventoryId.map (fun v => trim (env.toUpperCase v))
    productName := r.productName.map trim
    supplier := r.supplier.map trim
    stock := some (r.stock.getD "In stock")
    warehouse := r.warehouse.map (fun v => trim (env.toUpperCase v))
    lastUpdated := some (r.lastUpdated.getD env.now) }

/-- The validators of a `required` string path with an optional `maxlength`: the first
failing one gives the message. -/
def stringPathError (v : Option String) (requiredMsg : String) (maxlength : Option (Nat × String)) :
    Option String :=
  match v with
  | none => some requiredMsg
  | some s =>
    if s = "" then some requiredMsg
    else
      match maxlength with
      | some (n, msg) => if s.length ≤ n then none else some msg
      | none => none

/-- The validators of a `required` string path with an `enum`. -/
def enumPathError (v : Option String) (requiredMsg : String) (values : List String)
    (suffix : String) : Option String :=
  match v with
  | none => some requiredMsg
  | some s =>
    if s = "" then some requiredMsg
    else if s ∈ values then none
    else some (s ++ suffix)

/-- The validators of `costUnit`: `required`, `min: 0`, `max: 1000000`. -/
def costUnitError (v : Option ℚ) : Option String :=
  match v with
  | none => some "Cost per unit is required"
  | some c =>
    if c < 0 then some "Cost cannot be negative"
    else if c > 1000000 then some "Cost cannot exceed $1,000,000"
    else none

/-- The checks of `userId` (`type: ObjectId`, `required: true`): the cast to an ObjectId,
whose failure is recorded under the path like a failed validator, and `required`. -/
def userIdError (env : Env) (v : Option String) : Option String :=
  match v with
  | none => some "Path `userId` is required."
  | some id =>
    if env.isObjectId id then none
    else some ("Cast to ObjectId failed for value " ++ id ++ " at path userId")

/-- The entry of a path in the `errors` mapping: present when a validator of the path fails. -/
def pathEntry (path : String) (e : Option String) : List (String × String) :=
  match e with
  | some msg => [(path, msg)]
  | none => []

/-- The `errors` mapping of the `ValidationError` of a document: path and message, in schema
order, for the paths with a failing validator. -/
def validationErrors (env : Env) (r : InventoryFields) : List (String × String) :=
  let d := applySetters env r
  pathEntry "inventoryId" (stringPathError d.inventoryId "Path `inventoryId` is required." none)
    ++ pathEntry "productName" (stringPathError d.productName "Product name is required"
          (some (100, "Product name cannot exceed 100 characters")))
    ++ pathEntry "category" (enumPathError d.category "Category is required" categoryValues
          " is not a valid category")
    ++ pathEntry "supplier" (stringPathError d.supplier "Supplier is required"
          (some (100, "Supplier name cannot exceed 100 characters")))
    ++ pathEntry "stock" (enumPathError d.stock "Stock status is required" stockValues
          " is not a valid stock status")
    ++ pathEntry "costUnit" (costUnitError d.costUnit)
    ++ pathEntry "warehouse" (stringPathError d.warehouse "Warehouse is required"
          (some (20, "Warehouse code cannot exceed 20 characters")))
    ++ pathEntry "userId" (userIdError env d.userId)

/-- Schema validation of a record submitted for create or update: the document to persist,
or the `ValidationError` with its field mapping. -/
def validateInventory (env : Env) (r : InventoryFields) :
    Except (List (String × String)) InventoryFields :=
  if validationErrors env r = [] then .ok (applySetters env r)
  else .error (validationErrors env r)

/-! ## `components/Dashboard.js` -/

/-- An inventory record as the dashboard receives it. -/
structure Item where
  _id : String
  inventoryId : String
  productName : String
  category : String
  supplier : String
  stock : String
  costUnit : ℚ
  warehouse : String
  deriving DecidableEq, Repr

/-- Whether the text fields of a record are ASCII. -/
def Item.asciiOnly (item : Item) : Bool :=
  isAscii item.productName && isAscii item.category && isAscii item.supplier &&
    isAscii item.inventoryId && isAscii item.warehouse && isAscii item.stock

/-- The callback of the search `filter` in `filterItems`. -/
def matchesSearch (js : CaseMapping) (term : String) (item : Item) : Bool :=
  includes (js.toLowerCase item.productName) term ||
  includes (js.toLowerCase item.category) term ||
  includes (js.toLowerCase item.supplier) term ||
  includes (js.toLowerCase item.inventoryId) term ||
  includes (js.toLowerCase item.warehouse) term

/-- The list `filterItems` passes to `setFilteredItems`, from the component state `items`,
`searchTerm`, `categoryFilter`, `stockFilter`. -/
def filterItems (js : CaseMapping) (items : List Item) (searchTerm categoryFilter stockFilter : String) :
    List Item :=
  let filtered := items
  -- apply search filter
  let filtered :=
    if trim searchTerm ≠ "" then
      let term := js.toLowerCase searchTerm
      filtered.filter (matchesSearch js term)
    else filtered
  -- apply category filter
  let filtered :=
    if categoryFilter ≠ "all" then
      filtered.filter (fun item => js.toLowerCase item.category == js.toLowerCase categoryFilter)
    else filtered
  -- apply stock filter
  let filtered :=
    if stockFilter ≠ "all" then
      filtered.filter (fun item => js.toLowerCase item.stock == js.toLowerCase stockFilter)
    else filtered
  filtered

/-- The block `// apply search filter` of `filterItems`. -/
def applySearch (js : CaseMapping) (searchTerm : String) (filtered : List Item) : List Item :=
  if trim searchTerm ≠ "" then
    let term := js.toLowerCase searchTerm
    filtered.filter (matchesSearch js term)
  else filtered

/-- The block `// apply category filter` of `filterItems`. -/
def applyCategory (js : CaseMapping) (categoryFilter : String) (filtered : List Item) : List Item :=
  if categoryFilter ≠ "all" then
    filtered.filter (fun item => js.toLowerCase item.category == js.toLowerCase categoryFilter)
  else filtered

/-- The block `// apply stock filter` of `filterItems`. -/
def applyStock (js : CaseMapping) (stockFilter : String) (filtered : List Item) : List Item :=
  if stockFilter ≠ "all" then
    filtered.filter (fun item => js.toLowerCase item.stock == js.toLowerCase stockFilter)
  else filtered

/-- The amount shown on the `Total Value` card, computed from `filteredItems`. -/
def totalValue (filteredItems : List Item) : ℚ :=
  (filteredItems.filter (fun item => item.stock == "In stock")).foldl
    (fun sum item => sum + item.costUnit) 0

/-! ## Notions used in the statements -/

/-- The account document `POST /register` builds from a request. -/
def registeredUser (env : Env) (username email password : String) : User :=
  newUser env username (env.toLowerCase email) (env.bcryptHash password env.genSalt)

/-- Whether a logged call is a call of `jwt.sign`. -/
def Effect.isSign : Effect → Bool
  | .sign _ _ _ => true
  | _ => false

/-- Whether a logged call is one of the two duplicate lookups. -/
def Effect.isLookup : Effect → Bool
  | .findOneEmail _ => true
  | .findOneUsername _ => true
  | _ => false

/-- The expiry carried by a token, if it is a signed token with an `exp` claim. -/
def Token.exp? : Token → Option Nat
  | .signed payload _ => payload.exp
  | .raw _ => none

/-- The token `jwt.sign` returns for an account at clock `now` under `secret`. -/
def issuedToken (user : User) (secret : String) (now : Nat) : Token :=
  .signed { user := some { id := user._id, username := user.username, email := user.email },
            iat := now / 1000, exp := some (now / 1000 + 604800) } secret

/-- The `user` claims issued for an account. -/
def claimsOf (account : User) : Claims :=
  { id := account._id, username := account.username, email := account.email }

/-- The search condition in the words of the specification: the term is empty or white
space only, or the lowercased term occurs as a contiguous substring in the lowercased
product name, category, supplier, inventory identifier or warehouse. -/
def SearchMatches (js : CaseMapping) (term : String) (item : Item) : Prop :=
  (∀ c ∈ term.data, isJsWhitespace c = true) ∨
  (js.toLowerCase term).data <:+: (js.toLowerCase item.productName).data ∨
  (js.toLowerCase term).data <:+: (js.toLowerCase item.category).data ∨
  (js.toLowerCase term).data <:+: (js.toLowerCase item.supplier).data ∨
  (js.toLowerCase term).data <:+: (js.toLowerCase item.inventoryId).data ∨
  (js.toLowerCase term).data <:+: (js.toLowerCase item.warehouse).data

instance (js : CaseMapping) (term : String) (item : Item) :
    Decidable (SearchMatches js term item) := by
  unfold SearchMatches
  infer_instance

/-- The search predicate of the dashboard: a blank term keeps every item, any other term
keeps the items one of whose five searched fields contains the lowercased term. -/
def searchKeeps (js : CaseMapping) (searchTerm : String) (item : Item) : Bool :=
  trim searchTerm == "" || matchesSearch js (js.toLowerCase searchTerm) item

/-- The category predicate: the sentinel `all`, or equality of the lowercased category. -/
def categoryKeeps (js : CaseMapping) (categoryFilter : String) (item : Item) : Bool :=
  categoryFilter == "all" || js.toLowerCase item.category == js.toLowerCase categoryFilter

/-- The stock predicate: the sentinel `all`, or equality of the lowercased stock status. -/
def stockKeeps (js : CaseMapping) (stockFilter : String) (item : Item) : Bool :=
  stockFilter == "all" || js.toLowerCase item.stock == js.toLowerCase stockFilter

/-- The sum of `costUnit` over the records of a list whose stock is `In stock`. -/
def inStockCost (records : List Item) : ℚ :=
  ((records.filter (fun item => item.stock == "In stock")).map (fun item => item.costUnit)).sum

/-- A fault the `catch` block of `/register` has no special case for. -/
def Unexpected (err : JsError) : Prop :=
  ¬ (err.name = "MongoError" ∧ err.code = some 11000) ∧ err.name ≠ "ValidationError"

/-! ## Concrete data used by the instances -/

/-- The strings `new ObjectId(string)` accepts in every version of the driver: 24
hexadecimal digits. -/
def isHex24 (s : String) : Bool :=
  s.length == 24 && s.data.all (fun c => c.isDigit || ('a' ≤ c && c ≤ 'f') || ('A' ≤ c && c ≤ 'F'))

/-- An environment with a configured secret and a working storage layer; its ObjectId cast
accepts the strings of 24 hexadecimal digits and its case conversions are those of the
Latin-1 range (the data of the instances below are ASCII). -/
def sampleEnv : Env :=
  { toCaseMapping := latin1Case
    JWT_SECRET := some "s3cret"
    NODE_ENV := none
    now := 5000
    isEmail := fun s => includes s "@"
    genSalt := "salt"
    bcryptHash := fun password salt => salt ++ password
    bcryptCompare := fun candidate hash => hash == "salt" ++ candidate
    newObjectId := "64b7f0c2a1d3e4f5a6b7c8d2"
    isObjectId := isHex24
    dbFault := fun _ => none
    duplicateKeyErrorName := "MongoServerError" }

/-- The account of the scenario of the specification, as stored. -/
def alice : User :=
  { _id := "64b7f0c2a1d3e4f5a6b7c8d1", username := "alice", email := "a@x.com",
    password := "saltsecret1", createdAt := 1000 }

/-- The same environment without `JWT_SECRET`. -/
def noSecretEnv : Env := { sampleEnv with JWT_SECRET := none }
/-- A login of `alice`, the email in another case. -/
def aliceLogin : Credentials := { email := some "A@x.com", password := some "secret1" }
/-- A registration with a fresh email and username. -/
def bobRegistration : Credentials :=
  { username := some "bob", email := some "Bob@X.com", password := some "hunter22" }
/-- A registration whose username is three spaces. -/
def blankNameRegistration : Credentials :=
  { username := some "   ", email := some "c@x.com", password := some "secret1" }

/-- The record of the scenario of the specification. -/
def mouse : Item :=
  { _id := "r1", inventoryId := "INV1", productName := "Mouse", category := "Accessories",
    supplier := "Acme", stock := "In stock", costUnit := 20, warehouse := "W1" }

/-- The fields submitted for that record by the owner `alice`. -/
def mouseFields : InventoryFields :=
  { inventoryId := some "inv1", productName := some "Mouse", category := some "Accessories",
    supplier := some "Acme", costUnit := some 20, warehouse := some "w1",
    userId := some "64b7f0c2a1d3e4f5a6b7c8d1" }

/-- A token signed with the secret of `sampleEnv` whose user id is no ObjectId. -/
def strayToken : Token :=
  .signed { user := some { id := "id1", username := "alice", email := "a@x.com" }, iat := 5,
            exp := some 604805 } "s3cret"

/-- A second record, in stock, that the search term `mouse` does not match. -/
def desk : Item :=
  { _id := "r2", inventoryId := "INV2", productName := "Desk", category := "Furniture",
    supplier := "Oak", stock := "In stock", costUnit := 50, warehouse := "W2" }

/-- An environment whose storage layer fails at every call. -/
def faultyEnv : Env :=
  { sampleEnv with
    dbFault := fun _ => some { name := "MongoNetworkError", message := "connection lost" } }

/-! ## The auth gate -/

theorem authCatch_eq (err : JsError) :
    authCatch err = [GateEvent.respond 401 { success := false, message := some (if err.name = "TokenExpiredError" then "Token has expired, please login again" else "Invalid authentication token") }] := by
  unfold authCatch
  split <;> rfl

theorem next_not_mem_authCatch (err : JsError) (r : Request) :
    GateEvent.next r ∉ authCatch err := by
  rw [authCatch_eq]; simp

theorem auth_of_no_token (env : Env) (req : Request) (next : Request → Option JsError)
    (h : req.xAuthToken = none ∨ ∃ token, req.xAuthToken = some token ∧ token.falsy = true) :
    auth env req next = [GateEvent.respond 401
      { success := false, message := some "No authentication token, access denied" }] := by
  unfold auth
  rcases h with h | ⟨token, h, hf⟩
  · rw [h]
  · rw [h]; simp [hf]

theorem auth_of_error (env : Env) (req : Request) (next : Request → Option JsError)
    (token : Token) (err : JsError) (h : req.xAuthToken = some token) (hf : token.falsy = false)
    (hv : jwtVerify token env.JWT_SECRET env.now = .error err) :
    auth env req next = authCatch err := by
  unfold auth
  rw [h]; simp [hf, hv]

theorem auth_of_ok (env : Env) (req : Request) (next : Request → Option JsError)
    (token : Token) (decoded : JwtPayload) (h : req.xAuthToken = some token)
    (hf : token.falsy = false)
    (hv : jwtVerify token env.JWT_SECRET env.now = .ok decoded) :
    auth env req next = GateEvent.next { req with user := decoded.user } ::
      (match next { req with user := decoded.user } with
       | none => []
       | some err => authCatch err) := by
  unfold auth
  rw [h]; simp only [hf, hv]
  cases next { xAuthToken := some token, user := decoded.user } <;> simp

theorem auth_next_of_ok (env : Env) (req : Request) (next : Request → Option JsError) :
    ∀ token decoded, req.xAuthToken = some token → token.falsy = false →
      jwtVerify token env.JWT_SECRET env.now = .ok decoded →
      GateEvent.next { req with user := decoded.user } ∈ auth env req next ∧
      (∀ r, GateEvent.next r ∈ auth env req next → r = { req with user := decoded.user }) ∧
      (next { req with user := decoded.user } = none →
        auth env req next = [GateEvent.next { req with user := decoded.user }]) := by
  intro token decoded h hf hv
  rw [auth_of_ok env req next token decoded h hf hv]
  refine ⟨List.mem_cons_self _ _, ?_, ?_⟩
  · intro r hr
    rcases List.mem_cons.mp hr with hr | hr
    · exact GateEvent.next.inj hr
    · cases hn : next { req with user := decoded.user } with
      | none => rw [hn] at hr; simp at hr
      | some e => rw [hn] at hr; exact absurd hr (next_not_mem_authCatch e r)
  · intro hn
    rw [hn]

/-- C1: the auth gate calls the downstream handler exactly when the `x-auth-token` header is
present, non-empty and verifies against the configured secret; then the request handed on
carries the decoded `user` claims and, the downstream handler returning normally, the gate
sends no response; in every other case the gate sends the single response 401 with
`success: false` and a message, and the downstream handler is not called. -/
theorem auth_gate_contract (env : Env) (req : Request) (next : Request → Option JsError) :
    ((∃ r, GateEvent.next r ∈ auth env req next) ↔
      ∃ token decoded, req.xAuthToken = some token ∧ token.falsy = false ∧
        jwtVerify token env.JWT_SECRET env.now = .ok decoded) ∧
    (∀ token decoded, req.xAuthToken = some token → token.falsy = false →
      jwtVerify token env.JWT_SECRET env.now = .ok decoded →
      GateEvent.next { req with user := decoded.user } ∈ auth env req next ∧
      (∀ r, GateEvent.next r ∈ auth env req next → r = { req with user := decoded.user }) ∧
      (next { req with user := decoded.user } = none →
        auth env req next = [GateEvent.next { req with user := decoded.user }])) ∧
    ((¬ ∃ token decoded, req.xAuthToken = some token ∧ token.falsy = false ∧
        jwtVerify token env.JWT_SECRET env.now = .ok decoded) →
      ∃ message, auth env req next =
        [GateEvent.respond 401 { success := false, message := some message }]) := by
  have key := auth_next_of_ok env req next
  have rejected : (¬ ∃ token decoded, req.xAuthToken = some token ∧ token.falsy = false ∧
        jwtVerify token env.JWT_SECRET env.now = .ok decoded) →
      ∃ message, auth env req next =
        [GateEvent.respond 401 { success := false, message := some message }] := by
    intro hno
    cases hx : req.xAuthToken with
    | none => exact ⟨_, auth_of_no_token env req next (Or.inl hx)⟩
    | some token =>
      cases hf : token.falsy with
      | true => exact ⟨_, auth_of_no_token env req next (Or.inr ⟨token, hx, hf⟩)⟩
      | false =>
        cases hv : jwtVerify token env.JWT_SECRET env.now with
        | error err =>
          exact ⟨_, (auth_of_error env req next token err hx hf hv).trans (authCatch_eq err)⟩
        | ok decoded => exact absurd ⟨token, decoded, hx, hf, hv⟩ hno
  refine ⟨⟨?_, ?_⟩, key, rejected⟩
  · rintro ⟨r, hr⟩
    by_contra hno
    obtain ⟨message, hm⟩ := rejected hno
    rw [hm] at hr
    simp at hr
  · rintro ⟨token, decoded, h, hf, hv⟩
    exact ⟨_, (key token decoded h hf hv).1⟩

/-- C2: for a present token whose verification fails the gate sends exactly one response, a
401 whose message is `Token has expired, please login again` when the error is named
`TokenExpiredError` and `Invalid authentication token` otherwise; the two messages differ. -/
theorem auth_failure_message (env : Env) (req : Request) (next : Request → Option JsError)
    (token : Token) (err : JsError)
    (hpresent : req.xAuthToken = some token) (hnonempty : token.falsy = false)
    (hfail : jwtVerify token env.JWT_SECRET env.now = .error err) :
    auth env req next = [GateEvent.respond 401 { success := false, message := some (if err.name = "TokenExpiredError" then "Token has expired, please login again" else "Invalid authentication token") }] ∧
    "Token has expired, please login again" ≠ "Invalid authentication token" := by
  refine ⟨?_, by decide⟩
  rw [auth_of_error env req next token err hpresent hnonempty hfail, authCatch_eq]


/-- An instance of C2: an expired token and a malformed one. -/
theorem auth_failure_message_witness :
    auth { sampleEnv with now := 5000 + 8 * 86400000 }
      { xAuthToken := some (issuedToken alice "s3cret" 5000) } (fun _ => none)
      = [GateEvent.respond 401
          { success := false, message := some "Token has expired, please login again" }] ∧
    auth sampleEnv { xAuthToken := some (.raw "garbage") } (fun _ => none)
      = [GateEvent.respond 401
          { success := false, message := some "Invalid authentication token" }] :=
  ⟨(auth_failure_message { sampleEnv with now := 5000 + 8 * 86400000 }
      { xAuthToken := some (issuedToken alice "s3cret" 5000) } (fun _ => none)
      (issuedToken alice "s3cret" 5000) { name := "TokenExpiredError", message := "jwt expired" }
      rfl rfl (by decide)).1,
   (auth_failure_message sampleEnv { xAuthToken := some (.raw "garbage") } (fun _ => none)
      (.raw "garbage") { name := "JsonWebTokenError", message := "jwt malformed" }
      rfl rfl (by decide)).1⟩

/-! ## Objects, `save` and the token-issuing tail -/

theorem Obj.get_delete_of_ne (o : Obj) (k k' : String) (h : k ≠ k') :
    (Obj.delete o k').get k = o.get k := by
  unfold Obj.delete Obj.get
  rw [List.find?_filter]
  have hp : (fun (a : String × JsVal) => decide ((a.1 != k') = true ∧ (a.1 == k) = true))
      = fun a => a.1 == k := by
    funext a
    by_cases hk : a.1 = k
    · simp [hk, h]
    · simp [hk]
  rw [hp]

theorem toJSON_keys (u : User) :
    (User.toJSON u).keys = ["_id", "username", "email", "createdAt", "__v"] := by
  simp [User.toJSON, User.toObject, Obj.delete, Obj.keys, List.filter]

theorem issueToken_cases (env : Env) (user : User) (status : Nat) (message : String)
    (store : Store) (log : List Effect) :
    (env.secretTruthy = false ∧ issueToken env user status message store log =
      { status := 500, body := { success := false, message := some "Server configuration error" },
        store := store, log := log }) ∨
    (∃ secret, env.JWT_SECRET = some secret ∧ secret ≠ "" ∧
      issueToken env user status message store log =
      { status := status,
        body := { success := true,
                  token := some (.signed { user := some { id := user._id, username := user.username, email := user.email }, iat := env.now / 1000, exp := some (env.now / 1000 + 604800) } secret),
                  user := some (publicUser user), message := some message },
        store := store,
        log := log ++ [.sign { id := user._id, username := user.username, email := user.email } secret "7d"] }) := by
  unfold issueToken Env.secretTruthy
  cases hs : env.JWT_SECRET with
  | none => left; simp
  | some secret =>
    by_cases he : secret = ""
    · left; simp [he]
    · right
      refine ⟨secret, rfl, he, ?_⟩
      have h7 : timespanSeconds "7d" = some 604800 := by decide
      simp [he, jwtSign, h7]


/-! ## `POST /register` -/

theorem registerCatch_not_success (env : Env) (t : Thrown) :
    (registerCatch env t).body.success = false ∧ (registerCatch env t).body.token = none ∧
    (registerCatch env t).log = t.log ∧ (registerCatch env t).store = t.store := by
  unfold registerCatch
  split_ifs <;> simp

theorem save_ok (env : Env) (store : Store) (u : User) (store' : Store)
    (h : save env store u = .ok store') :
    store' = store ++ [u] ∧ userRequiredErrors u = [] ∧ env.dbFault .save = none ∧
    store.any (fun v => v.username == u.username) = false ∧
    store.any (fun v => v.email == u.email) = false := by
  unfold save at h
  by_cases h1 : userRequiredErrors u = []
  · cases h2 : env.dbFault .save with
    | some err => simp [h1, h2] at h
    | none =>
      cases h3 : store.any (fun v => v.username == u.username) with
      | true => simp [h1, h2, h3] at h
      | false =>
        cases h4 : store.any (fun v => v.email == u.email) with
        | true => simp [h1, h2, h3, h4] at h
        | false =>
          simp [h1, h2, h3, h4] at h
          exact ⟨h.symm, h1, rfl, rfl, rfl⟩
  · simp [h1] at h

theorem registerTry_ok_cases (env : Env) (store : Store) (req : Credentials) (out : Outcome)
    (h : registerTry env store req = .ok out) :
    (out.status = 400 ∧ out.body.success = false ∧ out.body.token = none ∧
      out.body.user = none ∧ out.store = store ∧ (∀ e ∈ out.log, e.isLookup = true)) ∨
    (∃ username email password, req.username = some username ∧ req.email = some email ∧
      req.password = some password ∧
      env.dbFault .findOneEmail = none ∧ env.dbFault .findOneUsername = none ∧
      findOneByEmail env store (env.toLowerCase email) = none ∧
      findOneByUsername store username = none ∧
      save env store (registeredUser env username email password)
        = .ok (store ++ [registeredUser env username email password]) ∧
      out = issueToken env (registeredUser env username email password) 201
        "Registration successful!" (store ++ [registeredUser env username email password])
        [.findOneEmail (env.toLowerCase email), .findOneUsername username, .genSalt,
         .hash password env.genSalt, .save (registeredUser env username email password)]) := by
  unfold registerTry at h
  split at h
  · rename_i username email password hu he hp
    split at h
    · simp at h
    · rename_i hf1
      split at h
      · left
        simp only [Except.ok.injEq] at h
        subst h
        simp [Effect.isLookup]
      · rename_i hfind1
        split at h
        · simp at h
        · rename_i hf2
          split at h
          · left
            simp only [Except.ok.injEq] at h
            subst h
            simp [Effect.isLookup]
          · rename_i hfind2
            dsimp only at h
            have hsv : ∀ store', save env store (registeredUser env username email password)
                = .ok store' → store' = store ++ [registeredUser env username email password] :=
              fun store' hsave => (save_ok env store _ store' hsave).1
            change (match save env store (registeredUser env username email password) with
              | Except.error err => _
              | Except.ok store' => _) = _ at h
            cases hsave : save env store (registeredUser env username email password) with
            | error err => rw [hsave] at h; simp at h
            | ok store' =>
              rw [hsave] at h
              right
              simp only [Except.ok.injEq] at h
              have hst := hsv store' hsave
              subst hst
              exact ⟨username, email, password, hu, he, hp, hf1, hf2, hfind1, hfind2, hsave,
                h.symm⟩
  · simp at h


theorem registerTry_error_cases (env : Env) (store : Store) (req : Credentials) (t : Thrown)
    (h : registerTry env store req = .error t) :
    t.store = store ∧ ∀ e ∈ t.log, e.isSign = false := by
  unfold registerTry at h
  split at h
  · split at h
    · simp only [Except.error.injEq] at h
      subst h
      simp [Effect.isSign]
    · split at h
      · simp at h
      · split at h
        · simp only [Except.error.injEq] at h
          subst h
          simp [Effect.isSign]
        · split at h
          · simp at h
          · dsimp only at h
            split at h
            · simp only [Except.error.injEq] at h
              subst h
              simp [Effect.isSign]
            · simp at h
  · simp only [Except.error.injEq] at h
    subst h
    simp

theorem register_of_valid (env : Env) (store : Store) (req : Credentials)
    (hv : validateRegister env req = []) :
    register env store req =
      match registerTry env store req with
      | .ok out => out
      | .error thrown => registerCatch env thrown := by
  unfold register
  simp [hv]

theorem register_of_invalid (env : Env) (store : Store) (req : Credentials)
    (hv : validateRegister env req ≠ []) :
    register env store req =
      { status := 400, body := { success := false, errors := some (validateRegister env req) },
        store := store, log := [] } := by
  unfold register
  simp [hv]

theorem Effect.isSign_of_isLookup (e : Effect) (h : e.isLookup = true) : e.isSign = false := by
  cases e <;> simp_all [Effect.isLookup, Effect.isSign]

theorem register_cases (env : Env) (store : Store) (req : Credentials) :
    ((register env store req).body.success = false ∧
      (register env store req).body.token = none ∧
      (register env store req).body.user = none ∧
      ∀ e ∈ (register env store req).log, e.isSign = false) ∨
    (∃ username email password secret,
      req.username = some username ∧ req.email = some email ∧ req.password = some password ∧
      validateRegister env req = [] ∧
      env.JWT_SECRET = some secret ∧ secret ≠ "" ∧
      findOneByEmail env store (env.toLowerCase email) = none ∧
      findOneByUsername store username = none ∧
      register env store req =
        { status := 201,
          body := { success := true,
                    token := some (issuedToken (registeredUser env username email password) secret env.now),
                    user := some (publicUser (registeredUser env username email password)),
                    message := some "Registration successful!" },
          store := store ++ [registeredUser env username email password],
          log := [.findOneEmail (env.toLowerCase email), .findOneUsername username, .genSalt,
                  .hash password env.genSalt,
                  .save (registeredUser env username email password),
                  .sign { id := (registeredUser env username email password)._id,
                          username := (registeredUser env username email password).username,
                          email := (registeredUser env username email password).email }
                    secret "7d"] }) := by
  by_cases hv : validateRegister env req = []
  · rw [register_of_valid env store req hv]
    cases hr : registerTry env store req with
    | error t =>
      left
      have hc := registerCatch_not_success env t
      have ht := registerTry_error_cases env store req t hr
      refine ⟨hc.1, hc.2.1, ?_, ?_⟩
      · simp only [registerCatch]; split_ifs <;> rfl
      · simp only [hc.2.2.1]; exact ht.2
    | ok out =>
      rcases registerTry_ok_cases env store req out hr with h | h
      · left
        obtain ⟨-, h1, h2, h3, -, h4⟩ := h
        exact ⟨h1, h2, h3, fun e he => Effect.isSign_of_isLookup e (h4 e he)⟩
      · obtain ⟨username, email, password, hu, he, hp, -, -, hf1, hf2, -, hout⟩ := h
        rcases issueToken_cases env (registeredUser env username email password) 201
          "Registration successful!" (store ++ [registeredUser env username email password])
          [.findOneEmail (env.toLowerCase email), .findOneUsername username, .genSalt,
           .hash password env.genSalt, .save (registeredUser env username email password)]
          with ⟨-, hi⟩ | ⟨secret, hs, hne, hi⟩
        · left
          simp only [hout, hi]
          simp [Effect.isSign]
        · right
          refine ⟨username, email, password, secret, hu, he, hp, hv, hs, hne, hf1, hf2, ?_⟩
          simp only [hout, hi]
          simp [issuedToken]
  · left
    rw [register_of_invalid env store req hv]
    simp


/-! ## `POST /login` -/

theorem login_of_valid (env : Env) (store : Store) (req : Credentials)
    (hv : validateLogin env req = []) :
    login env store req =
      match loginTry env store req with
      | .ok out => out
      | .error thrown => loginCatch env thrown := by
  unfold login
  simp [hv]

theorem login_of_invalid (env : Env) (store : Store) (req : Credentials)
    (hv : validateLogin env req ≠ []) :
    login env store req =
      { status := 400, body := { success := false, errors := some (validateLogin env req) },
        store := store, log := [] } := by
  unfold login
  simp [hv]

theorem loginTry_of_no_account (env : Env) (store : Store) (req : Credentials)
    (email password : String) (he : req.email = some email) (hp : req.password = some password)
    (hfault : env.dbFault .findOneEmail = none)
    (hfind : findOneByEmail env store (env.toLowerCase email) = none) :
    loginTry env store req =
      .ok { status := 400,
            body := { success := false, message := some "Invalid email or password",
                      field := some "email" },
            store := store, log := [.findOneEmail (env.toLowerCase email)] } := by
  unfold loginTry
  simp [he, hp, hfault, hfind]

theorem loginTry_of_mismatch (env : Env) (store : Store) (req : Credentials)
    (email password : String) (user : User)
    (he : req.email = some email) (hp : req.password = some password)
    (hfault : env.dbFault .findOneEmail = none)
    (hfind : findOneByEmail env store (env.toLowerCase email) = some user)
    (hcmp : env.bcryptCompare password user.password = false) :
    loginTry env store req =
      .ok { status := 400,
            body := { success := false, message := some "Invalid email or password",
                      field := some "password" },
            store := store,
            log := [.findOneEmail (env.toLowerCase email), .compare password user.password] } := by
  unfold loginTry
  simp [he, hp, hfault, hfind, hcmp]

theorem loginTry_of_match (env : Env) (store : Store) (req : Credentials)
    (email password : String) (user : User)
    (he : req.email = some email) (hp : req.password = some password)
    (hfault : env.dbFault .findOneEmail = none)
    (hfind : findOneByEmail env store (env.toLowerCase email) = some user)
    (hcmp : env.bcryptCompare password user.password = true) :
    loginTry env store req =
      .ok (issueToken env user 200 "Login successful!" store
        [.findOneEmail (env.toLowerCase email), .compare password user.password]) := by
  unfold loginTry
  simp [he, hp, hfault, hfind, hcmp]

theorem login_cases (env : Env) (store : Store) (req : Credentials) :
    ((login env store req).body.success = false ∧
      (login env store req).body.token = none ∧
      (login env store req).body.user = none ∧
      (login env store req).store = store ∧
      ∀ e ∈ (login env store req).log, e.isSign = false) ∨
    (∃ email password user secret,
      req.email = some email ∧ req.password = some password ∧
      validateLogin env req = [] ∧
      env.JWT_SECRET = some secret ∧ secret ≠ "" ∧
      findOneByEmail env store (env.toLowerCase email) = some user ∧
      env.bcryptCompare password user.password = true ∧
      login env store req =
        { status := 200,
          body := { success := true,
                    token := some (issuedToken user secret env.now),
                    user := some (publicUser user),
                    message := some "Login successful!" },
          store := store,
          log := [.findOneEmail (env.toLowerCase email), .compare password user.password,
                  .sign { id := user._id, username := user.username, email := user.email }
                    secret "7d"] }) := by
  by_cases hv : validateLogin env req = []
  · rw [login_of_valid env store req hv]
    cases he : req.email with
    | none => left; simp [loginTry, he, loginCatch]
    | some email =>
      cases hp : req.password with
      | none => left; simp [loginTry, he, hp, loginCatch]
      | some password =>
        cases hfault : env.dbFault .findOneEmail with
        | some err => left; simp [loginTry, he, hp, hfault, loginCatch, Effect.isSign]
        | none =>
          cases hfind : findOneByEmail env store (env.toLowerCase email) with
          | none =>
            left
            rw [loginTry_of_no_account env store req email password he hp hfault hfind]
            simp [Effect.isSign]
          | some user =>
            cases hcmp : env.bcryptCompare password user.password with
            | false =>
              left
              rw [loginTry_of_mismatch env store req email password user he hp hfault hfind hcmp]
              simp [Effect.isSign]
            | true =>
              rw [loginTry_of_match env store req email password user he hp hfault hfind hcmp]
              rcases issueToken_cases env user 200 "Login successful!" store
                [.findOneEmail (env.toLowerCase email), .compare password user.password]
                with ⟨-, hi⟩ | ⟨secret, hs, hne, hi⟩
              · left
                simp only [hi]
                simp [Effect.isSign]
              · right
                refine ⟨email, password, user, secret, rfl, rfl, hv, hs, hne, hfind, hcmp, ?_⟩
                simp only [hi]
                simp [issuedToken]
  · left
    rw [login_of_invalid env store req hv]
    simp


/-! ## Serialisation of accounts -/

theorem publicUser_keys (user : User) :
    (publicUser user).keys = ["id", "username", "email", "createdAt"] := rfl

theorem toJSON_eq (u : User) :
    User.toJSON u = [("_id", .str u._id), ("username", .str u.username),
      ("email", .str u.email), ("createdAt", .date u.createdAt), ("__v", .num u.__v)] := by
  simp [User.toJSON, User.toObject, Obj.delete, List.filter]

/-- C3: `User.toJSON` returns the account's `_id`, `username`, `email`, `createdAt` and `__v`
with the account's values and no `password` property, and the body of every successful
`/register` or `/login` response is `success`, the message, a token whose claims are the
account's id, username and email, and a `user` object with exactly the properties `id`,
`username`, `email`, `createdAt`, holding those values of the account added (register) or
found (login): the password, raw or hashed, is no part of it. -/
theorem password_never_serialized (env : Env) (store : Store) (req : Credentials) (u : User) :
    User.toJSON u = [("_id", .str u._id), ("username", .str u.username),
      ("email", .str u.email), ("createdAt", .date u.createdAt), ("__v", .num u.__v)] ∧
    (User.toJSON u).get "password" = none ∧
    "password" ∉ (User.toJSON u).keys ∧
    (∀ k, k ≠ "password" → (User.toJSON u).get k = u.toObject.get k) ∧
    ((register env store req).body.success = true →
      ∃ account secret, (register env store req).store = store ++ [account] ∧
        (register env store req).body =
          { success := true,
            token := some (.signed
              { user := some { id := account._id, username := account.username,
                               email := account.email },
                iat := env.now / 1000, exp := some (env.now / 1000 + 604800) } secret),
            user := some [("id", .str account._id), ("username", .str account.username),
                          ("email", .str account.email), ("createdAt", .date account.createdAt)],
            message := some "Registration successful!" }) ∧
    ((login env store req).body.success = true →
      ∃ email account secret, req.email = some email ∧
        findOneByEmail env store (env.toLowerCase email) = some account ∧ account ∈ store ∧
        (login env store req).body =
          { success := true,
            token := some (.signed
              { user := some { id := account._id, username := account.username,
                               email := account.email },
                iat := env.now / 1000, exp := some (env.now / 1000 + 604800) } secret),
            user := some [("id", .str account._id), ("username", .str account.username),
                          ("email", .str account.email), ("createdAt", .date account.createdAt)],
            message := some "Login successful!" }) := by
  refine ⟨toJSON_eq u, ?_, ?_, ?_, ?_, ?_⟩
  · rw [toJSON_eq]
    simp [Obj.get, List.find?]
  · rw [toJSON_keys]; decide
  · intro k hk
    exact Obj.get_delete_of_ne u.toObject k "password" hk
  · intro hs
    rcases register_cases env store req with h | ⟨username, email, password, secret, -, -, -, -, -, -, -, -, h⟩
    · rw [h.1] at hs; exact absurd hs (by decide)
    · rw [h]; exact ⟨_, _, rfl, rfl⟩
  · intro hs
    rcases login_cases env store req with h | ⟨email, password, user, secret, he, -, -, -, -, hfind, -, h⟩
    · rw [h.1] at hs; exact absurd hs (by decide)
    · rw [h]; exact ⟨email, user, _, he, hfind, List.mem_of_find?_eq_some hfind, rfl⟩

/-! ## Registration: duplicate checks -/

theorem find?_email_of_mem (store : Store) (q : String)
    (h : ∃ u ∈ store, u.email = q) :
    ∃ v, store.find? (fun u => u.email == q) = some v := by
  obtain ⟨u, hu, he⟩ := h
  cases hf : store.find? (fun u => u.email == q) with
  | some v => exact ⟨v, rfl⟩
  | none =>
    have := List.find?_eq_none.mp hf u hu
    simp [he] at this

theorem find?_username_of_mem (store : Store) (q : String)
    (h : ∃ u ∈ store, u.username = q) :
    ∃ v, store.find? (fun u => u.username == q) = some v := by
  obtain ⟨u, hu, he⟩ := h
  cases hf : store.find? (fun u => u.username == q) with
  | some v => exact ⟨v, rfl⟩
  | none =>
    have := List.find?_eq_none.mp hf u hu
    simp [he] at this

/-- C4: for a store whose accounts hold their emails lowercased, a working storage layer
and a validly-formed registration request (its email free of surrounding white space, as
`isEmail` requires), an email equal to a stored one up to case, by the runtime's
`toLowerCase`, is answered 400 with field `email`; otherwise a username equal to a stored
one (the stored usernames being trimmed, as the schema stores them) is answered 400 with
field `username`; in both cases only lookups were made and the store is unchanged.  The
first two parts state the checks as the code makes them, on the email and the username cast
through the schema setters. -/
theorem register_rejects_duplicates (env : Env) (store : Store) (req : Credentials)
    (username email : String)
    (hvalid : validateRegister env req = [])
    (hu : req.username = some username) (he : req.email = some email)
    (hfault : env.dbFault .findOneEmail = none) :
    ((∃ u ∈ store, u.email = emailSetters env (env.toLowerCase email)) →
      (register env store req).status = 400 ∧
      (register env store req).body =
        { success := false, message := some "A user with this email already exists",
          field := some "email" } ∧
      (register env store req).store = store ∧
      ∀ e ∈ (register env store req).log, e.isLookup = true) ∧
    ((∀ u ∈ store, u.email ≠ emailSetters env (env.toLowerCase email)) →
      env.dbFault .findOneUsername = none →
      (∃ u ∈ store, u.username = usernameSetters username) →
      (register env store req).status = 400 ∧
      (register env store req).body =
        { success := false, message := some "This username is already taken",
          field := some "username" } ∧
      (register env store req).store = store ∧
      ∀ e ∈ (register env store req).log, e.isLookup = true) ∧
    ((∀ u ∈ store, env.toLowerCase u.email = u.email) →
      trim (env.toLowerCase email) = env.toLowerCase email →
      ((∃ u ∈ store, env.toLowerCase u.email = env.toLowerCase email) →
        (register env store req).status = 400 ∧
        (register env store req).body =
          { success := false, message := some "A user with this email already exists",
            field := some "email" } ∧
        (register env store req).store = store ∧
        ∀ e ∈ (register env store req).log, e.isLookup = true) ∧
      ((¬ ∃ u ∈ store, env.toLowerCase u.email = env.toLowerCase email) →
        env.dbFault .findOneUsername = none →
        (∀ u ∈ store, trim u.username = u.username) →
        (∃ u ∈ store, u.username = username) →
        (register env store req).status = 400 ∧
        (register env store req).body =
          { success := false, message := some "This username is already taken",
            field := some "username" } ∧
        (register env store req).store = store ∧
        ∀ e ∈ (register env store req).log, e.isLookup = true)) := by
  have hp : ∃ password, req.password = some password := by
    cases hpw : req.password with
    | some password => exact ⟨password, rfl⟩
    | none =>
      have : validateRegister env req ≠ [] := by
        simp [validateRegister, hpw, fieldText]
      exact absurd hvalid this
  obtain ⟨password, hp⟩ := hp
  have hemail : (∃ u ∈ store, u.email = emailSetters env (env.toLowerCase email)) →
      (register env store req).status = 400 ∧
      (register env store req).body =
        { success := false, message := some "A user with this email already exists",
          field := some "email" } ∧
      (register env store req).store = store ∧
      ∀ e ∈ (register env store req).log, e.isLookup = true := by
    intro hdup
    obtain ⟨v, hv⟩ := find?_email_of_mem store (emailSetters env (env.toLowerCase email)) hdup
    have hv' : findOneByEmail env store (env.toLowerCase email) = some v := hv
    rw [register_of_valid env store req hvalid]
    simp [registerTry, hu, he, hp, hfault, hv', Effect.isLookup]
  have hname : (∀ u ∈ store, u.email ≠ emailSetters env (env.toLowerCase email)) →
      env.dbFault .findOneUsername = none →
      (∃ u ∈ store, u.username = usernameSetters username) →
      (register env store req).status = 400 ∧
      (register env store req).body =
        { success := false, message := some "This username is already taken",
          field := some "username" } ∧
      (register env store req).store = store ∧
      ∀ e ∈ (register env store req).log, e.isLookup = true := by
    intro hno hfault2 hdup
    have hv : findOneByEmail env store (env.toLowerCase email) = none := by
      unfold findOneByEmail
      rw [List.find?_eq_none]
      intro u hmem
      simpa using hno u hmem
    obtain ⟨w, hw⟩ := find?_username_of_mem store (usernameSetters username) hdup
    have hw' : findOneByUsername store username = some w := hw
    rw [register_of_valid env store req hvalid]
    simp [registerTry, hu, he, hp, hfault, hfault2, hv, hw', Effect.isLookup]
  refine ⟨hemail, hname, ?_⟩
  intro hlower hclean
  have hquery : emailSetters env (env.toLowerCase email) = env.toLowerCase email := by
    unfold emailSetters
    rw [hclean, env.toLowerCase_idem]
  constructor
  · rintro ⟨u, hmem, hue⟩
    exact hemail ⟨u, hmem, by rw [hquery, ← hue, hlower u hmem]⟩
  · intro hno hfault2 htrim hdup
    refine hname ?_ hfault2 ?_
    · intro u hmem hcontra
      apply hno
      refine ⟨u, hmem, ?_⟩
      rw [hlower u hmem, hcontra, hquery]
    · obtain ⟨u, hmem, hue⟩ := hdup
      refine ⟨u, hmem, ?_⟩
      unfold usernameSetters
      rw [← hue, htrim u hmem]

/-- An instance of C4: a duplicate email in another case, a duplicate username, and a
username that is a duplicate once trimmed. -/
theorem register_rejects_duplicates_witness :
    (register sampleEnv [alice]
      { username := some "bob", email := some "A@X.com", password := some "secret1" }).status
      = 400 ∧
    (register sampleEnv [alice]
      { username := some "alice", email := some "b@x.com", password := some "secret1" }).body.field
      = some "username" ∧
    (register sampleEnv [alice]
      { username := some " alice", email := some "b@x.com", password := some "secret1" }).body.field
      = some "username" :=
  ⟨(((register_rejects_duplicates sampleEnv [alice] _ "bob" "A@X.com"
      (by decide) rfl rfl rfl).2.2 (by decide) (by decide)).1
      ⟨alice, by decide, by decide⟩).1,
   by
    rw [(((register_rejects_duplicates sampleEnv [alice] _ "alice" "b@x.com"
      (by decide) rfl rfl rfl).2.2 (by decide) (by decide)).2 (by decide) rfl (by decide)
      ⟨alice, by decide, rfl⟩).2.1],
   by
    rw [((register_rejects_duplicates sampleEnv [alice] _ " alice" "b@x.com"
      (by decide) rfl rfl rfl).2.1 (by decide) rfl ⟨alice, by decide, by decide⟩).2.1]⟩

/-! ## Login: failed credentials -/

/-- C8: of two validated login requests, one naming an email no account has and one naming
an existing account with a password that does not match, both are answered 400 with the
message `Invalid email or password`. -/
theorem login_failures_share_message (env₁ env₂ : Env) (store₁ store₂ : Store)
    (req₁ req₂ : Credentials) (email₁ password₁ email₂ password₂ : String) (user : User)
    (hvalid₁ : validateLogin env₁ req₁ = []) (hvalid₂ : validateLogin env₂ req₂ = [])
    (he₁ : req₁.email = some email₁) (hp₁ : req₁.password = some password₁)
    (he₂ : req₂.email = some email₂) (hp₂ : req₂.password = some password₂)
    (hfault₁ : env₁.dbFault .findOneEmail = none) (hfault₂ : env₂.dbFault .findOneEmail = none)
    (hmissing : ∀ u ∈ store₁, u.email ≠ emailSetters env₁ (env₁.toLowerCase email₁))
    (hfound : findOneByEmail env₂ store₂ (env₂.toLowerCase email₂) = some user)
    (hmismatch : env₂.bcryptCompare password₂ user.password = false) :
    (login env₁ store₁ req₁).status = 400 ∧
    (login env₂ store₂ req₂).status = 400 ∧
    (login env₁ store₁ req₁).body.message = some "Invalid email or password" ∧
    (login env₂ store₂ req₂).body.message = (login env₁ store₁ req₁).body.message ∧
    (login env₁ store₁ req₁).body.success = false ∧
    (login env₂ store₂ req₂).body.success = false := by
  have hnone : findOneByEmail env₁ store₁ (env₁.toLowerCase email₁) = none := by
    unfold findOneByEmail
    rw [List.find?_eq_none]
    intro u hmem
    simpa using hmissing u hmem
  rw [login_of_valid env₁ store₁ req₁ hvalid₁, login_of_valid env₂ store₂ req₂ hvalid₂,
    loginTry_of_no_account env₁ store₁ req₁ email₁ password₁ he₁ hp₁ hfault₁ hnone,
    loginTry_of_mismatch env₂ store₂ req₂ email₂ password₂ user he₂ hp₂ hfault₂ hfound hmismatch]
  simp


/-- An instance of C8 on a store holding `alice`. -/
theorem login_failures_share_message_witness :
    (login sampleEnv [alice] { email := some "nobody@x.com", password := some "secret1" }).body.message
      = some "Invalid email or password" ∧
    (login sampleEnv [alice] { email := some "a@x.com", password := some "wrong" }).body.message
      = (login sampleEnv [alice] { email := some "nobody@x.com", password := some "secret1" }).body.message :=
  have h := login_failures_share_message sampleEnv sampleEnv [alice] [alice]
    { email := some "nobody@x.com", password := some "secret1" }
    { email := some "a@x.com", password := some "wrong" }
    "nobody@x.com" "secret1" "a@x.com" "wrong" alice
    (by decide) (by decide) rfl rfl rfl rfl rfl rfl (by decide) (by decide) (by decide)
  ⟨h.2.2.1, h.2.2.2.1⟩

/-! ## The signing-secret check -/

theorem secretTruthy_false_iff (env : Env) :
    env.secretTruthy = false ↔ env.JWT_SECRET = none ∨ env.JWT_SECRET = some "" := by
  unfold Env.secretTruthy
  cases env.JWT_SECRET with
  | none => simp
  | some s => simp

theorem issueToken_of_no_secret (env : Env) (user : User) (status : Nat) (message : String)
    (store : Store) (log : List Effect) (h : env.secretTruthy = false) :
    issueToken env user status message store log =
      { status := 500, body := { success := false, message := some "Server configuration error" },
        store := store, log := log } := by
  rcases issueToken_cases env user status message store log with ⟨-, hi⟩ | ⟨secret, hs, hne, -⟩
  · exact hi
  · rcases (secretTruthy_false_iff env).mp h with h' | h'
    · rw [h'] at hs; cases hs
    · rw [h'] at hs; cases hs; exact absurd rfl hne

/-- C5, counterexample: a registration that passes validation and both duplicate lookups
and is answered 400, not 500, when no signing secret is configured: its username consists
of spaces, the schema trims it, and `save` fails the `required` validator before the
secret is looked at. -/
theorem register_no_secret_not_500 :
    validateRegister noSecretEnv blankNameRegistration = [] ∧
    findOneByEmail noSecretEnv ([] : Store) (noSecretEnv.toLowerCase "c@x.com") = none ∧
    findOneByUsername ([] : Store) "   " = none ∧
    noSecretEnv.secretTruthy = false ∧
    (register noSecretEnv [] blankNameRegistration).status = 400 ∧
    (register noSecretEnv [] blankNameRegistration).status ≠ 500 ∧
    (register noSecretEnv [] blankNameRegistration).body =
      { success := false, message := some "Path `username` is required." } := by
  decide

/-- C5, amended: without a configured signing secret no `/register` or `/login` request
leads to a call of `jwt.sign` or to a response with a token, and the response has
`success: false`; a registration that passes validation and the duplicate checks and whose
account is saved, and a login with matching credentials, are answered 500. -/
theorem no_secret_no_token (env : Env) (store : Store) (req : Credentials)
    (hsecret : env.secretTruthy = false) :
    ((register env store req).body.success = false ∧
      (register env store req).body.token = none ∧
      ∀ e ∈ (register env store req).log, e.isSign = false) ∧
    ((login env store req).body.success = false ∧
      (login env store req).body.token = none ∧
      ∀ e ∈ (login env store req).log, e.isSign = false) ∧
    (∀ username email password store',
      req.username = some username → req.email = some email → req.password = some password →
      validateRegister env req = [] →
      env.dbFault .findOneEmail = none → env.dbFault .findOneUsername = none →
      findOneByEmail env store (env.toLowerCase email) = none →
      findOneByUsername store username = none →
      save env store (registeredUser env username email password) = .ok store' →
      (register env store req).status = 500 ∧
      (register env store req).body =
        { success := false, message := some "Server configuration error" }) ∧
    (∀ email password user,
      req.email = some email → req.password = some password →
      validateLogin env req = [] →
      env.dbFault .findOneEmail = none →
      findOneByEmail env store (env.toLowerCase email) = some user →
      env.bcryptCompare password user.password = true →
      (login env store req).status = 500 ∧
      (login env store req).body =
        { success := false, message := some "Server configuration error" }) := by
  have hsec : ∀ secret, env.JWT_SECRET = some secret → secret = "" := by
    intro secret hs
    rcases (secretTruthy_false_iff env).mp hsecret with h | h
    · rw [h] at hs; cases hs
    · rw [h] at hs; cases hs; rfl
  refine ⟨?_, ?_, ?_, ?_⟩
  · rcases register_cases env store req with h | ⟨_, _, _, secret, -, -, -, -, hs, hne, -⟩
    · exact ⟨h.1, h.2.1, h.2.2.2⟩
    · exact absurd (hsec secret hs) hne
  · rcases login_cases env store req with h | ⟨_, _, _, secret, -, -, -, hs, hne, -⟩
    · exact ⟨h.1, h.2.1, h.2.2.2.2⟩
    · exact absurd (hsec secret hs) hne
  · intro username email password store' hu he hp hvalid hf1 hf2 hfind1 hfind2 hsave
    rw [register_of_valid env store req hvalid]
    have hnew : newUser env username (env.toLowerCase email) (env.bcryptHash password env.genSalt)
        = registeredUser env username email password := rfl
    simp [registerTry, hu, he, hp, hf1, hf2, hfind1, hfind2, hnew, hsave,
      issueToken_of_no_secret env _ _ _ _ _ hsecret]
  · intro email password user he hp hvalid hf hfind hcmp
    rw [login_of_valid env store req hvalid,
      loginTry_of_match env store req email password user he hp hf hfind hcmp,
      issueToken_of_no_secret env _ _ _ _ _ hsecret]
    exact ⟨rfl, rfl⟩

/-- An instance of C5: a fresh registration and a login of `alice` without a secret. -/
theorem no_secret_no_token_witness :
    noSecretEnv.secretTruthy = false ∧
    (register noSecretEnv [alice] bobRegistration).status = 500 ∧
    (register noSecretEnv [alice] bobRegistration).body.token = none ∧
    (login noSecretEnv [alice] aliceLogin).status = 500 :=
  ⟨by decide,
   ((no_secret_no_token noSecretEnv [alice] bobRegistration (by decide)).2.2.1
      "bob" "Bob@X.com" "hunter22" _ rfl rfl rfl (by decide) rfl rfl (by decide) (by decide)
      (by decide : save noSecretEnv [alice] (registeredUser noSecretEnv "bob" "Bob@X.com" "hunter22")
        = .ok ([alice] ++ [registeredUser noSecretEnv "bob" "Bob@X.com" "hunter22"]))).1,
   (no_secret_no_token noSecretEnv [alice] bobRegistration (by decide)).1.2.1,
   ((no_secret_no_token noSecretEnv [alice] aliceLogin (by decide)).2.2.2
      "A@x.com" "secret1" alice rfl rfl (by decide) rfl (by decide) (by decide)).1⟩


/-! ## Issued tokens at the gate -/

theorem jwtVerify_issued (user : User) (secret : String) (issuedAt now : Nat)
    (hne : secret ≠ "") :
    jwtVerify (issuedToken user secret issuedAt) (some secret) now =
      if now / 1000 ≥ issuedAt / 1000 + 604800 then
        .error { name := "TokenExpiredError", message := "jwt expired" }
      else
        .ok { user := some (claimsOf user), iat := issuedAt / 1000,
              exp := some (issuedAt / 1000 + 604800) } := by
  simp [jwtVerify, issuedToken, hne, claimsOf]

theorem auth_of_issued_fresh (gate : Env) (greq : Request) (next : Request → Option JsError)
    (user : User) (secret : String) (issuedAt : Nat)
    (hheader : greq.xAuthToken = some (issuedToken user secret issuedAt))
    (hsecret : gate.JWT_SECRET = some secret) (hne : secret ≠ "")
    (hbefore : gate.now / 1000 < issuedAt / 1000 + 604800) :
    GateEvent.next { greq with user := some (claimsOf user) } ∈ auth gate greq next ∧
    ∀ r, GateEvent.next r ∈ auth gate greq next → r.user = some (claimsOf user) := by
  have hv : jwtVerify (issuedToken user secret issuedAt) gate.JWT_SECRET gate.now =
      .ok { user := some (claimsOf user), iat := issuedAt / 1000,
            exp := some (issuedAt / 1000 + 604800) } := by
    rw [hsecret, jwtVerify_issued user secret issuedAt gate.now hne, if_neg (by omega)]
  have h := auth_next_of_ok gate greq next _ _ hheader rfl hv
  refine ⟨h.1, fun r hr => ?_⟩
  rw [h.2.1 r hr]

theorem auth_of_issued_expired (gate : Env) (greq : Request) (next : Request → Option JsError)
    (user : User) (secret : String) (issuedAt : Nat)
    (hheader : greq.xAuthToken = some (issuedToken user secret issuedAt))
    (hsecret : gate.JWT_SECRET = some secret) (hne : secret ≠ "")
    (hafter : issuedAt / 1000 + 604800 ≤ gate.now / 1000) :
    auth gate greq next = [GateEvent.respond 401
      { success := false, message := some "Token has expired, please login again" }] := by
  have hv : jwtVerify (issuedToken user secret issuedAt) gate.JWT_SECRET gate.now =
      .error { name := "TokenExpiredError", message := "jwt expired" } := by
    rw [hsecret, jwtVerify_issued user secret issuedAt gate.now hne, if_pos (by omega)]
  rw [auth_of_error gate greq next _ _ hheader rfl hv, authCatch_eq]
  simp

/-- C6: a token issued by a successful login or registration, presented to the gate before
its expiry under the same secret, makes the gate hand on a request whose `user` has the id,
username and email of the account the token was issued for (the account found by the login,
the account added by the registration). -/
theorem issued_token_recovers_identity (env gate : Env) (store : Store) (req : Credentials)
    (greq : Request) (next : Request → Option JsError) (token : Token) (exp : Nat)
    (hheader : greq.xAuthToken = some token)
    (hsecret : gate.JWT_SECRET = env.JWT_SECRET)
    (hexp : token.exp? = some exp) (hbefore : gate.now / 1000 < exp) :
    ((login env store req).body.token = some token →
      ∃ email account claims, req.email = some email ∧
        findOneByEmail env store (env.toLowerCase email) = some account ∧
        claims.id = account._id ∧ claims.username = account.username ∧
        claims.email = account.email ∧
        GateEvent.next { greq with user := some claims } ∈ auth gate greq next ∧
        ∀ r, GateEvent.next r ∈ auth gate greq next → r.user = some claims) ∧
    ((register env store req).body.token = some token →
      ∃ account claims, (register env store req).store = store ++ [account] ∧
        claims.id = account._id ∧ claims.username = account.username ∧
        claims.email = account.email ∧
        GateEvent.next { greq with user := some claims } ∈ auth gate greq next ∧
        ∀ r, GateEvent.next r ∈ auth gate greq next → r.user = some claims) := by
  constructor
  · intro htok
    rcases login_cases env store req with h | ⟨email, password, user, secret, he, -, -, hs, hne, hfind, -, h⟩
    · rw [h.2.1] at htok; cases htok
    · rw [h] at htok
      simp only [Option.some.injEq] at htok
      subst htok
      have hb : gate.now / 1000 < env.now / 1000 + 604800 := by
        simp only [Token.exp?, issuedToken, Option.some.injEq] at hexp
        omega
      exact ⟨email, user, claimsOf user, he, hfind, rfl, rfl, rfl,
        auth_of_issued_fresh gate greq next user secret env.now hheader (hsecret.trans hs) hne hb⟩
  · intro htok
    rcases register_cases env store req with h | ⟨username, email, password, secret, -, -, -, -, hs, hne, -, -, h⟩
    · rw [h.2.1] at htok; cases htok
    · rw [h] at htok
      simp only [Option.some.injEq] at htok
      subst htok
      have hb : gate.now / 1000 < env.now / 1000 + 604800 := by
        simp only [Token.exp?, issuedToken, Option.some.injEq] at hexp
        omega
      refine ⟨registeredUser env username email password,
        claimsOf (registeredUser env username email password), by rw [h], rfl, rfl, rfl, ?_⟩
      exact auth_of_issued_fresh gate greq next _ secret env.now hheader (hsecret.trans hs) hne hb

/-- An instance of C6: `alice` logs in at 5 s and presents the token six days later. -/
theorem issued_token_recovers_identity_witness :
    (login sampleEnv [alice] aliceLogin).body.token = some (issuedToken alice "s3cret" 5000) ∧
    ∃ claims, claims.id = "64b7f0c2a1d3e4f5a6b7c8d1" ∧ claims.username = "alice" ∧ claims.email = "a@x.com" ∧
      GateEvent.next { xAuthToken := some (issuedToken alice "s3cret" 5000), user := some claims }
        ∈ auth { sampleEnv with now := 518405000 }
            { xAuthToken := some (issuedToken alice "s3cret" 5000) } (fun _ => none) :=
  ⟨by decide,
   by
    obtain ⟨email, account, claims, he, hfind, h1, h2, h3, hnext, -⟩ :=
      (issued_token_recovers_identity sampleEnv { sampleEnv with now := 518405000 } [alice]
        aliceLogin { xAuthToken := some (issuedToken alice "s3cret" 5000) } (fun _ => none)
        (issuedToken alice "s3cret" 5000) 604805 rfl rfl (by decide) (by decide)).1 (by decide)
    have hemail : email = "A@x.com" := by
      have : aliceLogin.email = some "A@x.com" := rfl
      rw [this] at he
      exact (Option.some.inj he).symm
    subst hemail
    have hacc : account = alice := by
      have : findOneByEmail sampleEnv ([alice] : Store) (sampleEnv.toLowerCase "A@x.com") = some alice := by
        decide
      rw [this] at hfind
      exact (Option.some.inj hfind).symm
    subst hacc
    exact ⟨claims, h1, h2, h3, hnext⟩⟩

/-- C7: a token issued by `/register` or `/login` at time `T` expires exactly 7 days
(604800 s) after `T`: under the same secret the gate accepts it while fewer than 604800 s
have passed, in particular at `T` + 6 days, and from then on rejects it with the expired
response (401, `Token has expired, please login again`), in particular at `T` + 8 days. -/
theorem issued_token_expires_after_seven_days (env gate : Env) (store : Store)
    (req : Credentials) (greq : Request) (next : Request → Option JsError) (token : Token)
    (hissued : (register env store req).body.token = some token ∨
      (login env store req).body.token = some token)
    (hheader : greq.xAuthToken = some token)
    (hsecret : gate.JWT_SECRET = env.JWT_SECRET) :
    token.exp? = some (env.now / 1000 + 7 * 86400) ∧
    (gate.now / 1000 < env.now / 1000 + 7 * 86400 → ∃ r, GateEvent.next r ∈ auth gate greq next) ∧
    (env.now / 1000 + 7 * 86400 ≤ gate.now / 1000 →
      auth gate greq next = [GateEvent.respond 401
        { success := false, message := some "Token has expired, please login again" }]) ∧
    (gate.now = env.now + 6 * 86400000 → ∃ r, GateEvent.next r ∈ auth gate greq next) ∧
    (gate.now = env.now + 8 * 86400000 →
      auth gate greq next = [GateEvent.respond 401
        { success := false, message := some "Token has expired, please login again" }] ∧
      auth gate greq next ≠ [GateEvent.respond 401
        { success := false, message := some "Invalid authentication token" }]) := by
  have key : ∃ user secret, token = issuedToken user secret env.now ∧
      env.JWT_SECRET = some secret ∧ secret ≠ "" := by
    rcases hissued with htok | htok
    · rcases register_cases env store req with h | ⟨username, email, password, secret, -, -, -, -, hs, hne, -, -, h⟩
      · rw [h.2.1] at htok; cases htok
      · rw [h] at htok
        simp only [Option.some.injEq] at htok
        exact ⟨_, secret, htok.symm, hs, hne⟩
    · rcases login_cases env store req with h | ⟨email, password, user, secret, -, -, -, hs, hne, -, -, h⟩
      · rw [h.2.1] at htok; cases htok
      · rw [h] at htok
        simp only [Option.some.injEq] at htok
        exact ⟨_, secret, htok.symm, hs, hne⟩
  obtain ⟨user, secret, rfl, hs, hne⟩ := key
  have hfresh : gate.now / 1000 < env.now / 1000 + 7 * 86400 →
      ∃ r, GateEvent.next r ∈ auth gate greq next := fun hb =>
    ⟨_, (auth_of_issued_fresh gate greq next user secret env.now hheader (hsecret.trans hs) hne
      (by omega)).1⟩
  have hexpired : env.now / 1000 + 7 * 86400 ≤ gate.now / 1000 →
      auth gate greq next = [GateEvent.respond 401
        { success := false, message := some "Token has expired, please login again" }] :=
    fun ha => auth_of_issued_expired gate greq next user secret env.now hheader
      (hsecret.trans hs) hne (by omega)
  refine ⟨rfl, hfresh, hexpired, fun h6 => hfresh (by omega), fun h8 => ?_⟩
  have h := hexpired (by omega)
  refine ⟨h, ?_⟩
  rw [h]
  decide

/-- An instance of C7: `bob` registers at 5 s; the gate six and eight days later. -/
theorem issued_token_expires_after_seven_days_witness :
    (register sampleEnv [alice] bobRegistration).body.token
      = some (issuedToken (registeredUser sampleEnv "bob" "Bob@X.com" "hunter22") "s3cret" 5000) ∧
    (∃ r, GateEvent.next r ∈ auth { sampleEnv with now := 5000 + 6 * 86400000 }
      { xAuthToken := some (issuedToken (registeredUser sampleEnv "bob" "Bob@X.com" "hunter22") "s3cret" 5000) }
      (fun _ => none)) ∧
    auth { sampleEnv with now := 5000 + 8 * 86400000 }
      { xAuthToken := some (issuedToken (registeredUser sampleEnv "bob" "Bob@X.com" "hunter22") "s3cret" 5000) }
      (fun _ => none) = [GateEvent.respond 401
        { success := false, message := some "Token has expired, please login again" }] :=
  ⟨by decide,
   (issued_token_expires_after_seven_days sampleEnv { sampleEnv with now := 5000 + 6 * 86400000 }
      [alice] bobRegistration _ (fun _ => none) _ (Or.inl (by decide)) rfl rfl).2.2.2.1 rfl,
   ((issued_token_expires_after_seven_days sampleEnv { sampleEnv with now := 5000 + 8 * 86400000 }
      [alice] bobRegistration _ (fun _ => none) _ (Or.inl (by decide)) rfl rfl).2.2.2.2 rfl).1⟩


/-! ## Inventory schema: `costUnit` -/

theorem mem_pathEntry (path p : String) (e : Option String) :
    p ∈ (pathEntry path e).map Prod.fst ↔ p = path ∧ e.isSome = true := by
  cases e <;> simp [pathEntry]

theorem costUnit_mem_validationErrors (env : Env) (r : InventoryFields) :
    "costUnit" ∈ (validationErrors env r).map Prod.fst ↔ (costUnitError r.costUnit).isSome = true := by
  unfold validationErrors
  simp only [List.map_append, List.mem_append, mem_pathEntry]
  simp [applySetters]

/-- C9: schema validation of an inventory record with a numeric `costUnit` reports the path
`costUnit` in the field mapping of its `ValidationError` exactly when `costUnit` is below 0
or above 1,000,000; for 0 ≤ `costUnit` ≤ 1,000,000, both bounds included, there is no
`costUnit` error, and the record of the scenario (cost 20, owner `alice`) is accepted. -/
theorem costUnit_range_validated (env : Env) (r : InventoryFields) (c : ℚ) :
    ((c < 0 ∨ 1000000 < c) →
      ∃ errors, validateInventory env { r with costUnit := some c } = .error errors ∧
        "costUnit" ∈ errors.map Prod.fst) ∧
    ((0 ≤ c ∧ c ≤ 1000000) →
      "costUnit" ∉ (validationErrors env { r with costUnit := some c }).map Prod.fst) ∧
    "costUnit" ∉ (validationErrors env { r with costUnit := some 0 }).map Prod.fst ∧
    "costUnit" ∉ (validationErrors env { r with costUnit := some 1000000 }).map Prod.fst ∧
    validateInventory sampleEnv mouseFields =
      .ok { inventoryId := some "INV1", productName := some "Mouse",
            category := some "Accessories", supplier := some "Acme", stock := some "In stock",
            costUnit := some 20, warehouse := some "W1", lastUpdated := some 5000,
            userId := some "64b7f0c2a1d3e4f5a6b7c8d1" } ∧
    (validationErrors sampleEnv { mouseFields with userId := some "id1" }).map Prod.fst
      = ["userId"] := by
  have hin : ∀ c : ℚ, (0 ≤ c ∧ c ≤ 1000000) →
      "costUnit" ∉ (validationErrors env { r with costUnit := some c }).map Prod.fst := by
    intro c hc
    rw [costUnit_mem_validationErrors]
    have h1 : ¬ c < 0 := not_lt.mpr hc.1
    have h2 : ¬ c > 1000000 := not_lt.mpr hc.2
    simp [costUnitError, h1, h2]
  refine ⟨?_, hin c, hin 0 (by norm_num), hin 1000000 (by norm_num), ?_⟩
  · intro hc
    have hmem : "costUnit" ∈
        (validationErrors env { r with costUnit := some c }).map Prod.fst := by
      rw [costUnit_mem_validationErrors]
      rcases hc with hc | hc
      · simp [costUnitError, hc]
      · have h1 : ¬ c < 0 := not_lt.mpr (le_trans (by norm_num) hc.le)
        simp [costUnitError, h1, hc]
    refine ⟨validationErrors env { r with costUnit := some c }, ?_, hmem⟩
    unfold validateInventory
    rw [if_neg]
    intro hnil
    rw [hnil] at hmem
    simp at hmem
  · decide


/-! ## Dashboard: search -/

theorem includes_iff_infix (s t : String) : includes s t = true ↔ t.data <:+: s.data := by
  unfold includes
  rw [List.any_eq_true]
  constructor
  · rintro ⟨suffix, hmem, hpre⟩
    rw [List.mem_tails] at hmem
    rw [List.isPrefixOf_iff_prefix] at hpre
    exact List.infix_iff_prefix_suffix.mpr ⟨suffix, hpre, hmem⟩
  · intro h
    obtain ⟨suffix, hpre, hsuf⟩ := List.infix_iff_prefix_suffix.mp h
    exact ⟨suffix, (List.mem_tails _ _).mpr hsuf, List.isPrefixOf_iff_prefix.mpr hpre⟩

theorem all_dropWhile_iff (p : Char → Bool) (l : List Char) :
    (∀ x ∈ l.dropWhile p, p x = true) ↔ ∀ x ∈ l, p x = true := by
  induction l with
  | nil => simp
  | cons a l ih =>
    by_cases ha : p a = true
    · simp [List.dropWhile_cons, ha, ih]
    · simp [List.dropWhile_cons, ha]

theorem trim_eq_empty_iff (s : String) :
    trim s = "" ↔ ∀ c ∈ s.data, isJsWhitespace c = true := by
  unfold trim
  have h : ∀ l : List Char, (String.mk l = "") ↔ l = [] := by
    intro l
    constructor
    · intro hl
      have := congrArg String.data hl
      simpa using this
    · intro hl; rw [hl]
  rw [h, List.reverse_eq_nil_iff, List.dropWhile_eq_nil_iff]
  constructor
  · intro hall
    apply (all_dropWhile_iff isJsWhitespace s.data).mp
    intro x hx
    exact hall x (List.mem_reverse.mpr hx)
  · intro hall x hx
    exact (all_dropWhile_iff isJsWhitespace s.data).mpr hall x (List.mem_reverse.mp hx)

theorem matchesSearch_iff (js : CaseMapping) (term : String) (item : Item) :
    matchesSearch js term item = true ↔
      term.data <:+: (js.toLowerCase item.productName).data ∨
      term.data <:+: (js.toLowerCase item.category).data ∨
      term.data <:+: (js.toLowerCase item.supplier).data ∨
      term.data <:+: (js.toLowerCase item.inventoryId).data ∨
      term.data <:+: (js.toLowerCase item.warehouse).data := by
  unfold matchesSearch
  simp only [Bool.or_eq_true, includes_iff_infix, or_assoc]

/-! ## Dashboard: combined filtering -/

theorem applySearch_eq_filter (js : CaseMapping) (searchTerm : String) (l : List Item) :
    applySearch js searchTerm l = l.filter (searchKeeps js searchTerm) := by
  unfold applySearch searchKeeps
  by_cases h : trim searchTerm = ""
  · simp [h]
  · have hb : (trim searchTerm == "") = false := by simpa using h
    simp [h, hb]

theorem applyCategory_eq_filter (js : CaseMapping) (categoryFilter : String) (l : List Item) :
    applyCategory js categoryFilter l = l.filter (categoryKeeps js categoryFilter) := by
  unfold applyCategory categoryKeeps
  by_cases h : categoryFilter = "all"
  · simp [h]
  · have hb : (categoryFilter == "all") = false := by simpa using h
    simp [h, hb]

theorem applyStock_eq_filter (js : CaseMapping) (stockFilter : String) (l : List Item) :
    applyStock js stockFilter l = l.filter (stockKeeps js stockFilter) := by
  unfold applyStock stockKeeps
  by_cases h : stockFilter = "all"
  · simp [h]
  · have hb : (stockFilter == "all") = false := by simpa using h
    simp [h, hb]

theorem filterItems_eq_stages (js : CaseMapping) (items : List Item) (s c k : String) :
    filterItems js items s c k = applyStock js k (applyCategory js c (applySearch js s items)) := rfl

theorem filterItems_eq_filter (js : CaseMapping) (items : List Item) (s c k : String) :
    filterItems js items s c k
      = items.filter (fun item => searchKeeps js s item && categoryKeeps js c item && stockKeeps js k item) := by
  rw [filterItems_eq_stages, applyStock_eq_filter, applyCategory_eq_filter,
    applySearch_eq_filter, List.filter_filter, List.filter_filter]
  apply List.filter_congr
  intro item _
  cases searchKeeps js s item <;> cases categoryKeeps js c item <;> cases stockKeeps js k item <;> rfl

/-- C11: `filterItems` returns exactly the items that satisfy the search predicate and the
category predicate and the stock predicate, in their original relative order; it is the
search filter, then the category filter, then the stock filter, each applied to the previous
result, and composing the three in any other order gives the same list. -/
theorem filterItems_conjunctive (js : CaseMapping) (items : List Item) (s c k : String) :
    filterItems js items s c k
      = items.filter (fun item => searchKeeps js s item && categoryKeeps js c item && stockKeeps js k item) ∧
    (∀ item, item ∈ filterItems js items s c k ↔
      item ∈ items ∧ searchKeeps js s item = true ∧ categoryKeeps js c item = true ∧
        stockKeeps js k item = true) ∧
    (filterItems js items s c k).Sublist items ∧
    filterItems js items s c k = applyStock js k (applyCategory js c (applySearch js s items)) ∧
    filterItems js items s c k = applyCategory js c (applyStock js k (applySearch js s items)) ∧
    filterItems js items s c k = applyStock js k (applySearch js s (applyCategory js c items)) ∧
    filterItems js items s c k = applySearch js s (applyStock js k (applyCategory js c items)) ∧
    filterItems js items s c k = applyCategory js c (applySearch js s (applyStock js k items)) ∧
    filterItems js items s c k = applySearch js s (applyCategory js c (applyStock js k items)) := by
  refine ⟨filterItems_eq_filter js items s c k, ?_, ?_, rfl, ?_, ?_, ?_, ?_, ?_⟩
  · intro item
    rw [filterItems_eq_filter, List.mem_filter]
    simp only [Bool.and_eq_true, and_assoc]
  · rw [filterItems_eq_filter]
    exact List.filter_sublist _
  all_goals
    rw [filterItems_eq_filter]
    simp only [applyStock_eq_filter, applyCategory_eq_filter, applySearch_eq_filter,
      List.filter_filter]
    apply List.filter_congr
    intro item _
    cases searchKeeps js s item <;> cases categoryKeeps js c item <;> cases stockKeeps js k item <;> rfl

/-! ## Dashboard: ASCII data -/

theorem matchesSearch_ascii (js₁ js₂ : CaseMapping) (term : String) (item : Item)
    (h : item.asciiOnly = true) :
    matchesSearch js₁ term item = matchesSearch js₂ term item := by
  simp only [Item.asciiOnly, Bool.and_eq_true] at h
  obtain ⟨⟨⟨⟨⟨h1, h2⟩, h3⟩, h4⟩, h5⟩, -⟩ := h
  simp only [matchesSearch, js₁.toLowerCase_ascii _ h1, js₁.toLowerCase_ascii _ h2,
    js₁.toLowerCase_ascii _ h3, js₁.toLowerCase_ascii _ h4, js₁.toLowerCase_ascii _ h5,
    js₂.toLowerCase_ascii _ h1, js₂.toLowerCase_ascii _ h2, js₂.toLowerCase_ascii _ h3,
    js₂.toLowerCase_ascii _ h4, js₂.toLowerCase_ascii _ h5]

theorem keeps_ascii (js₁ js₂ : CaseMapping) (s c k : String) (item : Item)
    (h : item.asciiOnly = true) (hs : isAscii s = true) (hc : isAscii c = true)
    (hk : isAscii k = true) :
    (searchKeeps js₁ s item && categoryKeeps js₁ c item && stockKeeps js₁ k item)
      = (searchKeeps js₂ s item && categoryKeeps js₂ c item && stockKeeps js₂ k item) := by
  have hm := matchesSearch_ascii js₁ js₂ (asciiLowerCase s) item h
  simp only [Item.asciiOnly, Bool.and_eq_true] at h
  obtain ⟨⟨⟨⟨⟨-, h2⟩, -⟩, -⟩, -⟩, h6⟩ := h
  simp only [searchKeeps, categoryKeeps, stockKeeps, js₁.toLowerCase_ascii _ hs,
    js₁.toLowerCase_ascii _ hc, js₁.toLowerCase_ascii _ hk, js₁.toLowerCase_ascii _ h2,
    js₁.toLowerCase_ascii _ h6, js₂.toLowerCase_ascii _ hs, js₂.toLowerCase_ascii _ hc,
    js₂.toLowerCase_ascii _ hk, js₂.toLowerCase_ascii _ h2, js₂.toLowerCase_ascii _ h6, hm]

/-- On ASCII records and ASCII selections `filterItems` does not depend on the runtime's
case conversions: any two give the same list. -/
theorem filterItems_ascii (js₁ js₂ : CaseMapping) (items : List Item) (s c k : String)
    (hitems : ∀ item ∈ items, item.asciiOnly = true) (hs : isAscii s = true)
    (hc : isAscii c = true) (hk : isAscii k = true) :
    filterItems js₁ items s c k = filterItems js₂ items s c k := by
  rw [filterItems_eq_filter, filterItems_eq_filter]
  apply List.filter_congr
  intro item hmem
  exact keeps_ascii js₁ js₂ s c k item (hitems item hmem) hs hc hk

/-! ## Dashboard: search, the claim -/

/-- C10: with the category and stock filters set to `all`, `filterItems` returns exactly the
items, in order, for which the search term is empty or white space only or its lowercased
form (by the runtime's `toLowerCase`) is a substring of the lowercased product name,
category, supplier, inventory identifier or warehouse; an empty or white-space-only term
returns every item; `mouse` finds the record named `Mouse`, and `xyz` against that record
alone finds nothing. -/
theorem filterItems_search (js : CaseMapping) (items : List Item) (searchTerm : String) :
    filterItems js items searchTerm "all" "all"
      = items.filter (fun item => decide (SearchMatches js searchTerm item)) ∧
    (∀ item, item ∈ filterItems js items searchTerm "all" "all" ↔
      item ∈ items ∧ SearchMatches js searchTerm item) ∧
    ((∀ c ∈ searchTerm.data, isJsWhitespace c = true) →
      filterItems js items searchTerm "all" "all" = items) ∧
    filterItems js items "" "all" "all" = items ∧
    filterItems js items "  " "all" "all" = items ∧
    filterItems js [mouse] "mouse" "all" "all" = [mouse] ∧
    filterItems js [mouse] "xyz" "all" "all" = [] := by
  have hblank : ∀ term : String, (∀ c ∈ term.data, isJsWhitespace c = true) →
      filterItems js items term "all" "all" = items := by
    intro term hw
    have ht : trim term = "" := (trim_eq_empty_iff term).mpr hw
    simp [filterItems, ht]
  have heq : filterItems js items searchTerm "all" "all"
      = items.filter (fun item => decide (SearchMatches js searchTerm item)) := by
    by_cases hw : ∀ c ∈ searchTerm.data, isJsWhitespace c = true
    · rw [hblank searchTerm hw]
      symm
      rw [List.filter_eq_self]
      intro item _
      exact decide_eq_true (Or.inl hw)
    · have ht : trim searchTerm ≠ "" := fun h => hw ((trim_eq_empty_iff searchTerm).mp h)
      simp only [filterItems, ht, ne_eq, not_false_eq_true, ↓reduceIte, not_true_eq_false]
      apply List.filter_congr
      intro item _
      rw [Bool.eq_iff_iff, matchesSearch_iff, decide_eq_true_iff]
      unfold SearchMatches
      constructor
      · exact Or.inr
      · rintro (h | h)
        · exact absurd h hw
        · exact h
  refine ⟨heq, ?_, hblank searchTerm, hblank "" (by decide), hblank "  " (by decide), ?_, ?_⟩
  · intro item
    rw [heq, List.mem_filter, decide_eq_true_iff]
  · rw [filterItems_ascii js latin1Case [mouse] "mouse" "all" "all" (by decide) (by decide) (by decide)
      (by decide)]
    decide
  · rw [filterItems_ascii js latin1Case [mouse] "xyz" "all" "all" (by decide) (by decide) (by decide)
      (by decide)]
    decide

/-! ## Dashboard: the category and stock filters -/

/-- C12, counterexample: an empty selection does not disable the category filter or the
stock filter: with the record `Mouse` alone, either one removes it. -/
theorem empty_selection_filters_out :
    filterItems latin1Case [mouse] "" "" "all" = [] ∧
    filterItems latin1Case [mouse] "" "all" "" = [] ∧
    filterItems latin1Case [mouse] "" "all" "all" = [mouse] := by
  decide

/-- C12, amended: the category filter and the stock filter of `filterItems` keep exactly the
items of their input whose lowercased category / stock equals the lowercased selection, and
each keeps every item of its input when its selection is the sentinel `all`; an empty
selection is no sentinel: it keeps the items whose category / stock is empty. -/
theorem category_and_stock_filters (js : CaseMapping) (items : List Item) (s c k : String) :
    filterItems js items s c k = applyStock js k (applyCategory js c (applySearch js s items)) ∧
    applyCategory js "all" items = items ∧
    applyStock js "all" items = items ∧
    (c ≠ "all" → ∀ item, item ∈ applyCategory js c items ↔
      item ∈ items ∧ js.toLowerCase item.category = js.toLowerCase c) ∧
    (k ≠ "all" → ∀ item, item ∈ applyStock js k items ↔
      item ∈ items ∧ js.toLowerCase item.stock = js.toLowerCase k) ∧
    (c ≠ "all" → applyCategory js c items
      = items.filter (fun item => js.toLowerCase item.category == js.toLowerCase c)) ∧
    (k ≠ "all" → applyStock js k items
      = items.filter (fun item => js.toLowerCase item.stock == js.toLowerCase k)) ∧
    (∀ item, item ∈ applyCategory js "" items ↔ item ∈ items ∧ item.category = "") ∧
    (∀ item, item ∈ applyStock js "" items ↔ item ∈ items ∧ item.stock = "") := by
  have hlow : ∀ x : String, js.toLowerCase x = js.toLowerCase "" ↔ x = "" := by
    intro x
    rw [(js.toLowerCase_eq_empty "").mpr rfl]
    exact js.toLowerCase_eq_empty x
  refine ⟨rfl, by simp [applyCategory], by simp [applyStock], ?_, ?_, ?_, ?_, ?_, ?_⟩
  · intro hc item
    simp [applyCategory, hc]
  · intro hk item
    simp [applyStock, hk]
  · intro hc
    simp [applyCategory, hc]
  · intro hk
    simp [applyStock, hk]
  · intro item
    have h : ("" : String) ≠ "all" := by decide
    simp only [applyCategory, h, ne_eq, not_false_eq_true, ↓reduceIte, List.mem_filter,
      beq_iff_eq, hlow]
  · intro item
    have h : ("" : String) ≠ "all" := by decide
    simp only [applyStock, h, ne_eq, not_false_eq_true, ↓reduceIte, List.mem_filter,
      beq_iff_eq, hlow]

/-! ## Dashboard: total valuation -/

theorem foldl_cost (l : List Item) (a : ℚ) :
    l.foldl (fun sum item => sum + item.costUnit) a
      = a + (l.map (fun item => item.costUnit)).sum := by
  induction l generalizing a with
  | nil => simp
  | cons x l ih => simp [List.foldl_cons, ih, add_assoc]

theorem totalValue_eq_inStockCost (records : List Item) :
    totalValue records = inStockCost records := by
  unfold totalValue inStockCost
  rw [foldl_cost, zero_add]

/-- C13: the total valuation of a list of records is the sum of `costUnit` over exactly the
records of the list whose stock is `In stock`; adding a record whose stock is
`Out of stock` anywhere in the list, for instance one of cost 500 at the end, leaves it
unchanged. -/
theorem totalValue_in_stock_only (records before after : List Item) (r : Item) :
    totalValue records
      = ((records.filter (fun item => item.stock == "In stock")).map
          (fun item => item.costUnit)).sum ∧
    totalValue (before ++ { r with stock := "Out of stock" } :: after)
      = totalValue (before ++ after) ∧
    totalValue (records ++ [{ r with stock := "Out of stock", costUnit := 500 }])
      = totalValue records ∧
    totalValue [mouse, { desk with stock := "Out of stock", costUnit := 500 }] = 20 := by
  have hout : ("Out of stock" == "In stock") = false := by decide
  refine ⟨totalValue_eq_inStockCost records, ?_, ?_, ?_⟩
  · simp only [totalValue_eq_inStockCost, inStockCost, List.filter_append, List.filter_cons, hout]
    simp
  · simp only [totalValue_eq_inStockCost, inStockCost, List.filter_append, List.filter_cons, hout]
    simp
  · rw [totalValue_eq_inStockCost]
    have hf : [mouse, { desk with stock := "Out of stock", costUnit := 500 }].filter
        (fun item => item.stock == "In stock") = [mouse] := by decide
    simp only [inStockCost, hf]
    norm_num [mouse]

/-- C14, counterexample: with the records `Mouse` (cost 20) and `Desk` (cost 50), both in
stock, the search term `mouse` makes the dashboard show 20 while the sum over all the
owner's in-stock records is 70. -/
theorem totalValue_follows_filters :
    totalValue (filterItems latin1Case [mouse, desk] "mouse" "all" "all") = 20 ∧
    inStockCost [mouse, desk] = 70 ∧
    totalValue (filterItems latin1Case [mouse, desk] "mouse" "all" "all") ≠ inStockCost [mouse, desk] := by
  have hf : filterItems latin1Case [mouse, desk] "mouse" "all" "all" = [mouse] := by decide
  have hs : [mouse, desk].filter (fun item => item.stock == "In stock") = [mouse, desk] := by
    decide
  have h1 : totalValue (filterItems latin1Case [mouse, desk] "mouse" "all" "all") = 20 := by
    rw [hf, totalValue_eq_inStockCost]
    have : [mouse].filter (fun item => item.stock == "In stock") = [mouse] := by decide
    simp only [inStockCost, this]
    norm_num [mouse]
  have h2 : inStockCost [mouse, desk] = 70 := by
    simp only [inStockCost, hs]
    norm_num [mouse, desk]
  refine ⟨h1, h2, ?_⟩
  rw [h1, h2]
  norm_num

/-- C14, amended: the total valuation the dashboard computes is taken over the filtered
list: it is the sum of `costUnit` over the owner's items that pass the search, category and
stock filters and whose stock is `In stock`; it is the sum over all of the owner's in-stock
items when no filter is active (blank search term, both selections `all`). -/
theorem totalValue_of_filtered (js : CaseMapping) (items : List Item) (s c k : String) :
    totalValue (filterItems js items s c k)
      = ((items.filter (fun item => searchKeeps js s item && categoryKeeps js c item &&
            stockKeeps js k item && item.stock == "In stock")).map
          (fun item => item.costUnit)).sum ∧
    (trim s = "" → totalValue (filterItems js items s "all" "all") = inStockCost items) := by
  constructor
  · rw [totalValue_eq_inStockCost, inStockCost, filterItems_eq_filter, List.filter_filter]
    congr 2
    apply List.filter_congr
    intro item _
    rw [Bool.and_comm]
  · intro hs
    rw [totalValue_eq_inStockCost, filterItems_eq_filter]
    congr 1
    rw [List.filter_eq_self]
    intro item _
    simp [searchKeeps, categoryKeeps, stockKeeps, hs]

/-! ## Dashboard: the instances in every runtime -/

/-- The instances of the filters on `Mouse` and `Desk` do not depend on the runtime: an
empty selection removes `Mouse`, and the search term `mouse` leaves a total value of 20. -/
theorem dashboard_instances_any_runtime (js : CaseMapping) :
    filterItems js [mouse] "" "" "all" = [] ∧
    filterItems js [mouse] "" "all" "" = [] ∧
    filterItems js [mouse, desk] "mouse" "all" "all" = [mouse] ∧
    totalValue (filterItems js [mouse, desk] "mouse" "all" "all") = 20 := by
  have h1 : filterItems js [mouse] "" "" "all" = [] := by
    rw [filterItems_ascii js latin1Case [mouse] "" "" "all" (by decide) (by decide) (by decide) (by decide)]
    decide
  have h2 : filterItems js [mouse] "" "all" "" = [] := by
    rw [filterItems_ascii js latin1Case [mouse] "" "all" "" (by decide) (by decide) (by decide) (by decide)]
    decide
  have h3 : filterItems js [mouse, desk] "mouse" "all" "all" = [mouse] := by
    rw [filterItems_ascii js latin1Case [mouse, desk] "mouse" "all" "all" (by decide) (by decide)
      (by decide) (by decide)]
    decide
  refine ⟨h1, h2, h3, ?_⟩
  rw [h3, totalValue_eq_inStockCost]
  have : [mouse].filter (fun item => item.stock == "In stock") = [mouse] := by decide
  simp only [inStockCost, this]
  norm_num [mouse]

/-! ## `GET /verify` -/

theorem secretTruthy_true_iff (env : Env) :
    env.secretTruthy = true ↔ ∃ secret, env.JWT_SECRET = some secret ∧ secret ≠ "" := by
  unfold Env.secretTruthy
  cases env.JWT_SECRET with
  | none => simp
  | some s => simp

theorem verifyRoute_of_no_token (env : Env) (store : Store) (req : Request)
    (h : req.xAuthToken = none ∨ ∃ token, req.xAuthToken = some token ∧ token.falsy = true) :
    verifyRoute env store req =
      { status := 401, body := { success := false, message := some "No token provided" },
        store := store, log := [] } := by
  unfold verifyRoute
  rcases h with h | ⟨token, h, hf⟩
  · rw [h]
  · rw [h]; simp [hf]

theorem verifyRoute_of_error (env : Env) (store : Store) (req : Request) (token : Token)
    (err : JsError) (hsecret : env.secretTruthy = true)
    (h : req.xAuthToken = some token) (hf : token.falsy = false)
    (hv : jwtVerify token env.JWT_SECRET env.now = .error err) :
    verifyRoute env store req =
      { status := 401, body := { success := false, message := some "Invalid token" },
        store := store, log := [] } := by
  obtain ⟨secret, hs, hne⟩ := (secretTruthy_true_iff env).mp hsecret
  rw [hs] at hv
  unfold verifyRoute
  rw [h]
  simp [hf, verifyTry, hs, hne, hv, verifyCatch]

theorem verifyRoute_of_fault (env : Env) (store : Store) (req : Request) (token : Token)
    (decoded : JwtPayload) (claims : Claims) (err : JsError) (hsecret : env.secretTruthy = true)
    (h : req.xAuthToken = some token) (hf : token.falsy = false)
    (hv : jwtVerify token env.JWT_SECRET env.now = .ok decoded)
    (hu : decoded.user = some claims) (hfault : env.dbFault .findById = some err) :
    verifyRoute env store req =
      { status := 401, body := { success := false, message := some "Invalid token" },
        store := store, log := [.findById claims.id] } := by
  obtain ⟨secret, hs, hne⟩ := (secretTruthy_true_iff env).mp hsecret
  rw [hs] at hv
  unfold verifyRoute
  rw [h]
  cases hc : env.isObjectId claims.id <;>
    simp [hf, verifyTry, hs, hne, hv, hu, hfault, verifyCatch, hc]

theorem verifyRoute_of_cast_error (env : Env) (store : Store) (req : Request) (token : Token)
    (decoded : JwtPayload) (claims : Claims) (hsecret : env.secretTruthy = true)
    (h : req.xAuthToken = some token) (hf : token.falsy = false)
    (hv : jwtVerify token env.JWT_SECRET env.now = .ok decoded)
    (hu : decoded.user = some claims) (hcast : env.isObjectId claims.id = false) :
    verifyRoute env store req =
      { status := 401, body := { success := false, message := some "Invalid token" },
        store := store, log := [.findById claims.id] } := by
  obtain ⟨secret, hs, hne⟩ := (secretTruthy_true_iff env).mp hsecret
  rw [hs] at hv
  unfold verifyRoute
  rw [h]
  simp [hf, verifyTry, hs, hne, hv, hu, hcast, verifyCatch]

theorem verifyRoute_of_ok (env : Env) (store : Store) (req : Request) (token : Token)
    (decoded : JwtPayload) (claims : Claims) (hsecret : env.secretTruthy = true)
    (h : req.xAuthToken = some token) (hf : token.falsy = false)
    (hv : jwtVerify token env.JWT_SECRET env.now = .ok decoded)
    (hu : decoded.user = some claims) (hcast : env.isObjectId claims.id = true)
    (hfault : env.dbFault .findById = none) :
    verifyRoute env store req =
      match store.find? (fun u => u._id == claims.id) with
      | none =>
        { status := 404, body := { success := false, message := some "User not found" },
          store := store, log := [.findById claims.id] }
      | some user =>
        { status := 200, body := { success := true, user := some user.toJSON },
          store := store, log := [.findById claims.id] } := by
  obtain ⟨secret, hs, hne⟩ := (secretTruthy_true_iff env).mp hsecret
  rw [hs] at hv
  unfold verifyRoute
  rw [h]
  simp only [hf, verifyTry, hs, hne, hv, hu, hfault, hcast]
  cases store.find? (fun u => u._id == claims.id) <;> simp

/-- C17, counterexample: a token that verifies under the configured secret and whose user
id (`id1`) matches no stored account is answered 401 `Invalid token`, not 404: `findById`
cannot cast the id to an ObjectId and the `CastError` lands in the catch block. -/
theorem verify_stray_id_answers_401 :
    sampleEnv.secretTruthy = true ∧
    jwtVerify strayToken sampleEnv.JWT_SECRET sampleEnv.now
      = .ok { user := some { id := "id1", username := "alice", email := "a@x.com" }, iat := 5,
              exp := some 604805 } ∧
    (∀ u ∈ [alice], u._id ≠ "id1") ∧
    verifyRoute sampleEnv [alice] { xAuthToken := some strayToken }
      = { status := 401, body := { success := false, message := some "Invalid token" },
          store := [alice], log := [.findById "id1"] } ∧
    (verifyRoute sampleEnv [alice] { xAuthToken := some strayToken }).status ≠ 404 := by
  decide

/-- C17, amended: with a configured secret, `/verify` answers 401 to a missing token and to
a token that fails verification; for a token that verifies and carries a user id that is a
well-formed ObjectId, the lookup answering, it answers 404 `User not found` when no stored
account has that id, and otherwise 200 with `success: true` and the `_id`, `username`,
`email`, `createdAt` and `__v` of the account with that id, without the `password`
property. -/
theorem verify_route_outcomes (env : Env) (store : Store) (req : Request)
    (hsecret : env.secretTruthy = true) :
    ((req.xAuthToken = none ∨ ∃ token, req.xAuthToken = some token ∧ token.falsy = true) →
      (verifyRoute env store req).status = 401 ∧
      (verifyRoute env store req).body.success = false) ∧
    (∀ token err, req.xAuthToken = some token → token.falsy = false →
      jwtVerify token env.JWT_SECRET env.now = .error err →
      (verifyRoute env store req).status = 401 ∧
      (verifyRoute env store req).body.success = false) ∧
    (∀ token decoded claims, req.xAuthToken = some token → token.falsy = false →
      jwtVerify token env.JWT_SECRET env.now = .ok decoded → decoded.user = some claims →
      env.isObjectId claims.id = true → env.dbFault .findById = none →
      ((∀ u ∈ store, u._id ≠ claims.id) →
        (verifyRoute env store req).status = 404 ∧
        (verifyRoute env store req).body
          = { success := false, message := some "User not found" }) ∧
      (∀ account, store.find? (fun u => u._id == claims.id) = some account →
        account ∈ store ∧ account._id = claims.id ∧
        (verifyRoute env store req).status = 200 ∧
        (verifyRoute env store req).body =
          { success := true,
            user := some [("_id", .str account._id), ("username", .str account.username),
                          ("email", .str account.email),
                          ("createdAt", .date account.createdAt),
                          ("__v", .num account.__v)] })) := by
  refine ⟨?_, ?_, ?_⟩
  · intro h
    rw [verifyRoute_of_no_token env store req h]
    exact ⟨rfl, rfl⟩
  · intro token err h hf hv
    rw [verifyRoute_of_error env store req token err hsecret h hf hv]
    exact ⟨rfl, rfl⟩
  · intro token decoded claims h hf hv hu hcast hfault
    rw [verifyRoute_of_ok env store req token decoded claims hsecret h hf hv hu hcast hfault]
    constructor
    · intro hno
      have hfind : store.find? (fun u => u._id == claims.id) = none := by
        rw [List.find?_eq_none]
        intro u hmem
        simpa using hno u hmem
      rw [hfind]
      exact ⟨rfl, rfl⟩
    · intro account hfind
      rw [hfind]
      refine ⟨List.mem_of_find?_eq_some hfind, ?_, rfl, ?_⟩
      · simpa using List.find?_some hfind
      · simp only [toJSON_eq]

/-- An instance of C17: `alice` presents a fresh token to `/verify`. -/
theorem verify_route_outcomes_witness :
    sampleEnv.secretTruthy = true ∧
    (verifyRoute sampleEnv [alice] { xAuthToken := some (issuedToken alice "s3cret" 5000) }).status
      = 200 ∧
    (verifyRoute sampleEnv [] { xAuthToken := some (issuedToken alice "s3cret" 5000) }).status
      = 404 ∧
    (verifyRoute sampleEnv [alice] { xAuthToken := none }).status = 401 :=
  ⟨by decide,
   ((verify_route_outcomes sampleEnv [alice]
      { xAuthToken := some (issuedToken alice "s3cret" 5000) } (by decide)).2.2
      (issuedToken alice "s3cret" 5000)
      { user := some { id := "64b7f0c2a1d3e4f5a6b7c8d1", username := "alice",
                       email := "a@x.com" }, iat := 5, exp := some 604805 }
      { id := "64b7f0c2a1d3e4f5a6b7c8d1", username := "alice", email := "a@x.com" }
      rfl rfl (by decide) rfl (by decide) rfl).2 alice (by decide) |>.2.2.1,
   ((verify_route_outcomes sampleEnv []
      { xAuthToken := some (issuedToken alice "s3cret" 5000) } (by decide)).2.2
      (issuedToken alice "s3cret" 5000)
      { user := some { id := "64b7f0c2a1d3e4f5a6b7c8d1", username := "alice",
                       email := "a@x.com" }, iat := 5, exp := some 604805 }
      { id := "64b7f0c2a1d3e4f5a6b7c8d1", username := "alice", email := "a@x.com" }
      rfl rfl (by decide) rfl (by decide) rfl).1 (by simp) |>.1,
   ((verify_route_outcomes sampleEnv [alice] { xAuthToken := none } (by decide)).1
      (Or.inl rfl)).1⟩

/-! ## Storage faults and rejected tokens in the route handlers -/

theorem registerCatch_of_unexpected (env : Env) (t : Thrown) (h : Unexpected t.err) :
    (registerCatch env t).status = 500 ∧
    (registerCatch env t).body.success = false ∧
    (registerCatch env t).body.message = some "Server error during registration" := by
  unfold registerCatch
  rw [if_neg h.1, if_neg h.2]
  exact ⟨rfl, rfl, rfl⟩

/-- The handlers other than `/verify` answer a storage fault with a generic 500: `/login`,
`/check-email` and `/check-username` for every fault of their lookup, `/register` for every
fault of its first lookup that its `catch` block has no special case for. -/
theorem storage_fault_answers_500 (env : Env) (store : Store) (req : Credentials)
    (email password : String) (err : JsError)
    (he : req.email = some email) (hp : req.password = some password) :
    (validateLogin env req = [] → env.dbFault .findOneEmail = some err →
      (login env store req).status = 500 ∧ (login env store req).body.success = false) ∧
    (env.dbFault .findOneEmail = some err →
      (checkEmail env store email).status = 500 ∧
      (checkEmail env store email).body.success = false) ∧
    (∀ username, env.dbFault .findOneUsername = some err →
      (checkUsername env store username).status = 500 ∧
      (checkUsername env store username).body.success = false) ∧
    (∀ username, req.username = some username → validateRegister env req = [] →
      env.dbFault .findOneEmail = some err → Unexpected err →
      (register env store req).status = 500 ∧
      (register env store req).body.success = false) := by
  refine ⟨?_, ?_, ?_, ?_⟩
  · intro hv hf
    rw [login_of_valid env store req hv]
    simp [loginTry, he, hp, hf, loginCatch]
  · intro hf
    simp [checkEmail, hf]
  · intro username hf
    simp [checkUsername, hf]
  · intro username hu hv hf hun
    rw [register_of_valid env store req hv]
    have ht : registerTry env store req
        = .error { err := err, store := store, log := [.findOneEmail (env.toLowerCase email)] } := by
      simp [registerTry, hu, he, hp, hf]
    rw [ht]
    have h := registerCatch_of_unexpected env
      { err := err, store := store, log := [.findOneEmail (env.toLowerCase email)] } hun
    exact ⟨h.1, h.2.1⟩

/-- C15, the failing input: `alice` presents a valid token to `/verify` while the storage
layer fails; `findById` throws and the catch-all of `/verify` answers 401 `Invalid token`,
where `/register`, `/login`, `/check-email` and `/check-username` answer the same fault
with 500. -/
theorem verify_storage_fault_answers_401 :
    faultyEnv.dbFault .findById
      = some { name := "MongoNetworkError", message := "connection lost" } ∧
    faultyEnv.isObjectId "64b7f0c2a1d3e4f5a6b7c8d1" = true ∧
    jwtVerify (issuedToken alice "s3cret" 5000) faultyEnv.JWT_SECRET faultyEnv.now
      = .ok { user := some { id := "64b7f0c2a1d3e4f5a6b7c8d1", username := "alice",
                             email := "a@x.com" }, iat := 5,
              exp := some 604805 } ∧
    verifyRoute faultyEnv [alice] { xAuthToken := some (issuedToken alice "s3cret" 5000) }
      = { status := 401, body := { success := false, message := some "Invalid token" },
          store := [alice], log := [.findById "64b7f0c2a1d3e4f5a6b7c8d1"] } ∧
    (register faultyEnv [alice] bobRegistration).status = 500 ∧
    (login faultyEnv [alice] aliceLogin).status = 500 ∧
    (checkEmail faultyEnv [alice] "a@x.com").status = 500 ∧
    (checkUsername faultyEnv [alice] "alice").status = 500 := by
  decide

/-- C16, the failing input: `/verify` answers an expired token of `alice` (eight days old)
and a malformed token with the same response, 401 `Invalid token`, although `jwt.verify`
reports the first as `TokenExpiredError` and the auth gate tells the two apart. -/
theorem verify_expired_same_as_invalid :
    jwtVerify (issuedToken alice "s3cret" 5000) (some "s3cret") (5000 + 8 * 86400000)
      = .error { name := "TokenExpiredError", message := "jwt expired" } ∧
    jwtVerify (.raw "garbage") (some "s3cret") (5000 + 8 * 86400000)
      = .error { name := "JsonWebTokenError", message := "jwt malformed" } ∧
    verifyRoute { sampleEnv with now := 5000 + 8 * 86400000 } [alice]
        { xAuthToken := some (issuedToken alice "s3cret" 5000) }
      = { status := 401, body := { success := false, message := some "Invalid token" },
          store := [alice], log := [] } ∧
    verifyRoute { sampleEnv with now := 5000 + 8 * 86400000 } [alice]
        { xAuthToken := some (issuedToken alice "s3cret" 5000) }
      = verifyRoute { sampleEnv with now := 5000 + 8 * 86400000 } [alice]
          { xAuthToken := some (.raw "garbage") } ∧
    auth { sampleEnv with now := 5000 + 8 * 86400000 }
        { xAuthToken := some (issuedToken alice "s3cret" 5000) } (fun _ => none)
      ≠ auth { sampleEnv with now := 5000 + 8 * 86400000 }
          { xAuthToken := some (.raw "garbage") } (fun _ => none) := by
  decide

/-- For every request and every configured secret, `/verify` gives a token that fails
verification the same response whatever the failure. -/
theorem verifyRoute_rejection_uniform (env : Env) (store : Store) (req₁ req₂ : Request)
    (token₁ token₂ : Token) (err₁ err₂ : JsError) (hsecret : env.secretTruthy = true)
    (h₁ : req₁.xAuthToken = some token₁) (hf₁ : token₁.falsy = false)
    (hv₁ : jwtVerify token₁ env.JWT_SECRET env.now = .error err₁)
    (h₂ : req₂.xAuthToken = some token₂) (hf₂ : token₂.falsy = false)
    (hv₂ : jwtVerify token₂ env.JWT_SECRET env.now = .error err₂) :
    verifyRoute env store req₁ = verifyRoute env store req₂ := by
  rw [verifyRoute_of_error env store req₁ token₁ err₁ hsecret h₁ hf₁ hv₁,
    verifyRoute_of_error env store req₂ token₂ err₂ hsecret h₂ hf₂ hv₂]

/-! ## Inventory schema: `category` and `stock` -/

theorem enumPathError_isSome (v : Option String) (requiredMsg : String) (values : List String)
    (suffix : String) (hne : "" ∉ values) :
    (enumPathError v requiredMsg values suffix).isSome = true ↔
      ¬ ∃ s, v = some s ∧ s ∈ values := by
  unfold enumPathError
  cases v with
  | none => simp
  | some s =>
    by_cases h0 : s = ""
    · subst h0
      simp [hne]
    · by_cases hm : s ∈ values
      · simp [h0, hm]
      · simp [h0, hm]

theorem category_mem_validationErrors (env : Env) (r : InventoryFields) :
    "category" ∈ (validationErrors env r).map Prod.fst ↔
      (enumPathError r.category "Category is required" categoryValues
        " is not a valid category").isSome = true := by
  unfold validationErrors
  simp only [List.map_append, List.mem_append, mem_pathEntry]
  simp [applySetters]

theorem stock_mem_validationErrors (env : Env) (r : InventoryFields) :
    "stock" ∈ (validationErrors env r).map Prod.fst ↔
      (enumPathError (some (r.stock.getD "In stock")) "Stock status is required" stockValues
        " is not a valid stock status").isSome = true := by
  unfold validationErrors
  simp only [List.map_append, List.mem_append, mem_pathEntry]
  simp [applySetters]

/-- C18: schema validation reports the path `category` unless the category is one of
Accessories, Electronics, Furniture, Printing, Audio, Office, Storage, and the path `stock`
exactly when a stock value is given that is neither `In stock` nor `Out of stock`; a record
the validation accepts has such a category and such a stock status, and a record submitted
without a stock value is given `In stock`. -/
theorem category_and_stock_enums (env : Env) (r : InventoryFields) :
    ("category" ∈ (validationErrors env r).map Prod.fst ↔
      ¬ ∃ v, r.category = some v ∧
        v ∈ ["Accessories", "Electronics", "Furniture", "Printing", "Audio", "Office",
             "Storage"]) ∧
    ("stock" ∈ (validationErrors env r).map Prod.fst ↔
      ∃ v, r.stock = some v ∧ v ∉ ["In stock", "Out of stock"]) ∧
    (∀ field, field = "category" ∨ field = "stock" →
      field ∈ (validationErrors env r).map Prod.fst →
      ∃ errors, validateInventory env r = .error errors ∧ field ∈ errors.map Prod.fst) ∧
    (∀ doc, validateInventory env r = .ok doc →
      (∃ v, doc.category = some v ∧
        v ∈ ["Accessories", "Electronics", "Furniture", "Printing", "Audio", "Office",
             "Storage"]) ∧
      (∃ v, doc.stock = some v ∧ v ∈ ["In stock", "Out of stock"])) ∧
    (r.stock = none →
      (applySetters env r).stock = some "In stock" ∧
      "stock" ∉ (validationErrors env r).map Prod.fst ∧
      ∀ doc, validateInventory env r = .ok doc → doc.stock = some "In stock") := by
  have hcat : "category" ∈ (validationErrors env r).map Prod.fst ↔
      ¬ ∃ v, r.category = some v ∧
        v ∈ ["Accessories", "Electronics", "Furniture", "Printing", "Audio", "Office",
             "Storage"] := by
    rw [category_mem_validationErrors, enumPathError_isSome _ _ _ _ (by decide)]
    rfl
  have hstock : "stock" ∈ (validationErrors env r).map Prod.fst ↔
      ∃ v, r.stock = some v ∧ v ∉ ["In stock", "Out of stock"] := by
    rw [stock_mem_validationErrors, enumPathError_isSome _ _ _ _ (by decide)]
    cases hs : r.stock with
    | none => simp [stockValues]
    | some v => simp [stockValues]
  have hok : ∀ doc, validateInventory env r = .ok doc →
      validationErrors env r = [] ∧ doc = applySetters env r := by
    intro doc h
    unfold validateInventory at h
    by_cases hnil : validationErrors env r = []
    · rw [if_pos hnil] at h
      exact ⟨hnil, (Except.ok.inj h).symm⟩
    · rw [if_neg hnil] at h
      cases h
  refine ⟨hcat, hstock, ?_, ?_, ?_⟩
  · intro field _ hmem
    refine ⟨validationErrors env r, ?_, hmem⟩
    unfold validateInventory
    rw [if_neg]
    intro hnil
    rw [hnil] at hmem
    simp at hmem
  · intro doc h
    obtain ⟨hnil, rfl⟩ := hok doc h
    constructor
    · have hc : ¬ "category" ∈ (validationErrors env r).map Prod.fst := by simp [hnil]
      rw [hcat, not_not] at hc
      simpa [applySetters] using hc
    · have hc : ¬ "stock" ∈ (validationErrors env r).map Prod.fst := by simp [hnil]
      rw [hstock] at hc
      cases hs : r.stock with
      | none => simp [applySetters, hs]
      | some v =>
        refine ⟨v, by simp [applySetters, hs], ?_⟩
        by_contra hv
        exact hc ⟨v, hs, hv⟩
  · intro hs
    refine ⟨by simp [applySetters, hs], ?_, ?_⟩
    · rw [hstock]
      simp [hs]
    · intro doc h
      obtain ⟨-, rfl⟩ := hok doc h
      simp [applySetters, hs]

/-! ## Registration: request validation -/

/-- C19: a register request whose username is empty or of a length outside 3..30, whose
email is not a valid email or whose password is shorter than 6 characters is answered 400
with `success: false` and the list of errors, one `{ field, message }` entry for each of the
four checks that failed; no lookup, hashing or save is made and the store is unchanged. -/
theorem register_rejects_invalid (env : Env) (store : Store) (req : Credentials)
    (hbad : fieldText req.username = "" ∨
      ¬ (3 ≤ (fieldText req.username).length ∧ (fieldText req.username).length ≤ 30) ∨
      env.isEmail (fieldText req.email) = false ∨
      (fieldText req.password).length < 6) :
    register env store req =
      { status := 400, body := { success := false, errors := some (validateRegister env req) },
        store := store, log := [] } ∧
    (validateRegister env req).length =
      (if fieldText req.username = "" then 1 else 0)
        + (if 3 ≤ (fieldText req.username).length ∧ (fieldText req.username).length ≤ 30
            then 0 else 1)
        + (if env.isEmail (fieldText req.email) = true then 0 else 1)
        + (if 6 ≤ (fieldText req.password).length then 0 else 1) ∧
    0 < (validateRegister env req).length ∧
    (({ field := "username", message := "Username is required" } : FieldError)
        ∈ validateRegister env req ↔ fieldText req.username = "") ∧
    (({ field := "username", message := "Username must be 3-30 characters" } : FieldError)
        ∈ validateRegister env req ↔
      ¬ (3 ≤ (fieldText req.username).length ∧ (fieldText req.username).length ≤ 30)) ∧
    (({ field := "email", message := "Please include a valid email" } : FieldError)
        ∈ validateRegister env req ↔ env.isEmail (fieldText req.email) = false) ∧
    (({ field := "password", message := "Password must be at least 6 characters" } : FieldError)
        ∈ validateRegister env req ↔ (fieldText req.password).length < 6) := by
  have hlen : (validateRegister env req).length =
      (if fieldText req.username = "" then 1 else 0)
        + (if 3 ≤ (fieldText req.username).length ∧ (fieldText req.username).length ≤ 30
            then 0 else 1)
        + (if env.isEmail (fieldText req.email) = true then 0 else 1)
        + (if 6 ≤ (fieldText req.password).length then 0 else 1) := by
    unfold validateRegister
    simp only [List.length_append]
    split_ifs <;> rfl
  have hpos : 0 < (validateRegister env req).length := by
    rw [hlen]
    rcases hbad with h | h | h | h
    · rw [if_pos h]; omega
    · rw [if_neg h]; omega
    · have h3 : ¬ env.isEmail (fieldText req.email) = true := by rw [h]; decide
      rw [if_neg h3]; omega
    · have h4 : ¬ 6 ≤ (fieldText req.password).length := by omega
      rw [if_neg h4]; omega
  have hne : validateRegister env req ≠ [] := by
    intro h
    rw [h] at hpos
    exact absurd hpos (by decide)
  refine ⟨register_of_invalid env store req hne, hlen, hpos, ?_, ?_, ?_, ?_⟩
  · unfold validateRegister
    simp only [List.mem_append]
    split_ifs <;> simp_all
  · unfold validateRegister
    simp only [List.mem_append]
    split_ifs <;> simp_all
  · unfold validateRegister
    simp only [List.mem_append]
    split_ifs <;> simp_all
  · unfold validateRegister
    simp only [List.mem_append]
    split_ifs <;> simp_all

/-- An instance of C19: an empty username, a bad email and a short password. -/
theorem register_rejects_invalid_witness :
    register sampleEnv [alice] { username := some "", email := some "nope", password := some "123" }
      = { status := 400,
          body := { success := false,
                    errors := some
                      [{ field := "username", message := "Username is required" },
                       { field := "username", message := "Username must be 3-30 characters" },
                       { field := "email", message := "Please include a valid email" },
                       { field := "password", message := "Password must be at least 6 characters" }] },
          store := [alice], log := [] } :=
  (register_rejects_invalid sampleEnv [alice]
    { username := some "", email := some "nope", password := some "123" }
    (Or.inl rfl)).1.trans (by decide)

/-! ## Registration: the account is saved before the secret is checked -/

/-- C20, counterexample: a registration that passes validation, with an email and a
username no stored account has, that is answered 400 and not persisted when no signing
secret is configured (its username consists of spaces and fails the schema's `required`
validator in `save`); repeating it gives the same answer, not a duplicate-email one. -/
theorem register_blank_name_not_persisted :
    validateRegister noSecretEnv blankNameRegistration = [] ∧
    noSecretEnv.secretTruthy = false ∧
    (register noSecretEnv [] blankNameRegistration).status = 400 ∧
    (register noSecretEnv [] blankNameRegistration).store = [] ∧
    (register noSecretEnv (register noSecretEnv [] blankNameRegistration).store
      blankNameRegistration).body =
      { success := false, message := some "Path `username` is required." } := by
  decide

/-- C20, amended: for a registration that passes validation, whose email (free of
surrounding white space, as `isEmail` requires) and username (as the schema trims it) no
stored account has and whose account `save` accepts, a missing signing secret makes
`/register` answer 500 although the new account has been added to the store; repeating the
registration (in the same runtime) is then answered 400 with field `email`. -/
theorem register_saves_before_secret_check (env env' : Env) (store store' : Store)
    (req : Credentials) (username email password : String)
    (hu : req.username = some username) (he : req.email = some email)
    (hp : req.password = some password)
    (hvalid : validateRegister env req = [])
    (hfault₁ : env.dbFault .findOneEmail = none) (hfault₂ : env.dbFault .findOneUsername = none)
    (hfresh₁ : ∀ u ∈ store, u.email ≠ env.toLowerCase email)
    (hfresh₂ : ∀ u ∈ store, u.username ≠ usernameSetters username)
    (hclean : trim (env.toLowerCase email) = env.toLowerCase email)
    (hsave : save env store (registeredUser env username email password) = .ok store')
    (hsecret : env.secretTruthy = false)
    (hvalid' : validateRegister env' req = [])
    (hfault' : env'.dbFault .findOneEmail = none)
    (hruntime : env'.toLowerCase = env.toLowerCase) :
    (register env store req).status = 500 ∧
    (register env store req).body
      = { success := false, message := some "Server configuration error" } ∧
    (register env store req).store = store ++ [registeredUser env username email password] ∧
    (∀ e ∈ (register env store req).log, e.isSign = false) ∧
    (register env' (register env store req).store req).status = 400 ∧
    (register env' (register env store req).store req).body
      = { success := false, message := some "A user with this email already exists",
          field := some "email" } ∧
    (register env' (register env store req).store req).store = (register env store req).store := by
  have hst : store' = store ++ [registeredUser env username email password] :=
    (save_ok env store _ store' hsave).1
  subst hst
  have hemail : (registeredUser env username email password).email
      = emailSetters env (env.toLowerCase email) := rfl
  have hfind₁ : findOneByEmail env store (env.toLowerCase email) = none := by
    unfold findOneByEmail emailSetters
    rw [hclean, env.toLowerCase_idem, List.find?_eq_none]
    intro u hmem
    simpa using hfresh₁ u hmem
  have hfind₂ : findOneByUsername store username = none := by
    unfold findOneByUsername
    rw [List.find?_eq_none]
    intro u hmem
    simpa using hfresh₂ u hmem
  have hnew : newUser env username (env.toLowerCase email) (env.bcryptHash password env.genSalt)
      = registeredUser env username email password := rfl
  have hfirst : register env store req =
      { status := 500, body := { success := false, message := some "Server configuration error" },
        store := store ++ [registeredUser env username email password],
        log := [.findOneEmail (env.toLowerCase email), .findOneUsername username, .genSalt,
                .hash password env.genSalt,
                .save (registeredUser env username email password)] } := by
    rw [register_of_valid env store req hvalid]
    simp [registerTry, hu, he, hp, hfault₁, hfault₂, hfind₁, hfind₂, hnew, hsave,
      issueToken_of_no_secret env _ _ _ _ _ hsecret]
  have hquery : emailSetters env' (env'.toLowerCase email)
      = emailSetters env (env.toLowerCase email) := by
    unfold emailSetters
    rw [hruntime]
  obtain ⟨v, hv⟩ := find?_email_of_mem
    (store ++ [registeredUser env username email password])
    (emailSetters env' (env'.toLowerCase email))
    ⟨registeredUser env username email password, by simp, hemail.trans hquery.symm⟩
  have hv' : findOneByEmail env' (store ++ [registeredUser env username email password])
      (env'.toLowerCase email) = some v := hv
  have hsecond : register env' (store ++ [registeredUser env username email password]) req =
      { status := 400,
        body := { success := false, message := some "A user with this email already exists",
                  field := some "email" },
        store := store ++ [registeredUser env username email password],
        log := [.findOneEmail (env'.toLowerCase email)] } := by
    rw [register_of_valid env' _ req hvalid']
    simp [registerTry, hu, he, hp, hfault', hv']
  rw [hfirst]
  refine ⟨rfl, rfl, rfl, ?_, ?_, ?_, ?_⟩
  · intro e hmem
    simp only [List.mem_cons, List.mem_singleton, List.not_mem_nil, or_false] at hmem
    rcases hmem with rfl | rfl | rfl | rfl | rfl <;> rfl
  · simp only [hsecond]
  · simp only [hsecond]
  · simp only [hsecond]

/-- An instance of C20: `bob` registers twice while no secret is configured. -/
theorem register_saves_before_secret_check_witness :
    (register noSecretEnv [alice] bobRegistration).status = 500 ∧
    (register noSecretEnv [alice] bobRegistration).store
      = [alice, registeredUser noSecretEnv "bob" "Bob@X.com" "hunter22"] ∧
    (register noSecretEnv (register noSecretEnv [alice] bobRegistration).store
      bobRegistration).status = 400 ∧
    (register noSecretEnv (register noSecretEnv [alice] bobRegistration).store
      bobRegistration).body.field = some "email" :=
  have h := register_saves_before_secret_check noSecretEnv noSecretEnv [alice]
    ([alice] ++ [registeredUser noSecretEnv "bob" "Bob@X.com" "hunter22"]) bobRegistration
    "bob" "Bob@X.com" "hunter22" rfl rfl rfl (by decide) rfl rfl (by decide) (by decide)
    (by decide) (by decide) (by decide) (by decide) rfl rfl
  ⟨h.1, h.2.2.1, h.2.2.2.2.1, by rw [h.2.2.2.2.2.1]⟩

end CloudInventory
